import Mathlib

/-!
Verification of the loan lifecycle and repayment engine.

Monetary values are modelled as exact rationals.  JavaScript
`Math.round` rounds half toward positive infinity, which we embed as
`jsRound`; `Math.ceil` at two decimals is `jsCeil2`.  The definitions
below are translated from `src/shared/utils/helpers.ts`,
`src/modules/loans/loan.model.ts`, the loan service, the disbursement
service `src/modules/disbursement/disbursement.service.ts`, and the
payment service `src/modules/payments/payment.service.ts`.
-/

/-- JavaScript `Math.round`: round half toward positive infinity. -/
def jsRound (x : ℚ) : ℤ := ⌊x + 1/2⌋

/-- Helper `roundToTwoDecimals` from `helpers.ts`:
`Math.round(value * 100) / 100`. -/
def roundToTwoDecimals (value : ℚ) : ℚ := (jsRound (value * 100) : ℚ) / 100

/-- Two-decimal ceiling, as in `Math.ceil(x * 100) / 100`. -/
def jsCeil2 (x : ℚ) : ℚ := (⌈x * 100⌉ : ℚ) / 100

/-- Helper `calculateSimpleInterest` from `helpers.ts`:
`principal * annualRate * (tenorInMonths / 12)`. -/
def calculateSimpleInterest (principal annualRate : ℚ) (tenorInMonths : ℕ) : ℚ :=
  principal * annualRate * ((tenorInMonths : ℚ) / 12)

/-- Helper `calculateMonthlyPayment` from `helpers.ts`:
`Math.ceil((totalRepayable / tenorInMonths) * 100) / 100`. -/
def calculateMonthlyPayment (totalRepayable : ℚ) (tenorInMonths : ℕ) : ℚ :=
  jsCeil2 (totalRepayable / (tenorInMonths : ℚ))

/-- Modelled from the spec: the specification defines `round2` as
half-away-from-zero rounding at 2 decimals.  Used to compare the
specified rounding with the rounding the code performs. -/
def specRound2 (x : ℚ) : ℚ :=
  if 0 ≤ x then ((⌊x * 100 + 1/2⌋ : ℤ) : ℚ) / 100
  else -(((⌊-x * 100 + 1/2⌋ : ℤ) : ℚ) / 100)

/-- A rational is an exact amount of cents. -/
def Cents (q : ℚ) : Prop := ∃ z : ℤ, q = (z : ℚ) / 100

theorem cents_add {a b : ℚ} (ha : Cents a) (hb : Cents b) : Cents (a + b) := by
  obtain ⟨x, rfl⟩ := ha
  obtain ⟨y, rfl⟩ := hb
  exact ⟨x + y, by push_cast; ring⟩

theorem cents_sub {a b : ℚ} (ha : Cents a) (hb : Cents b) : Cents (a - b) := by
  obtain ⟨x, rfl⟩ := ha
  obtain ⟨y, rfl⟩ := hb
  exact ⟨x - y, by push_cast; ring⟩

theorem cents_min {a b : ℚ} (ha : Cents a) (hb : Cents b) : Cents (min a b) := by
  rcases le_total a b with h | h
  · rwa [min_eq_left h]
  · rwa [min_eq_right h]

theorem cents_intCast (z : ℤ) : Cents (z : ℚ) := ⟨z * 100, by push_cast; ring⟩

theorem cents_zero : Cents 0 := ⟨0, by norm_num⟩

theorem cents_nat_mul {a : ℚ} (n : ℕ) (ha : Cents a) : Cents ((n : ℚ) * a) := by
  obtain ⟨x, rfl⟩ := ha
  exact ⟨n * x, by push_cast; ring⟩

/-- `roundToTwoDecimals` always produces an exact number of cents. -/
theorem cents_roundToTwoDecimals (x : ℚ) : Cents (roundToTwoDecimals x) :=
  ⟨jsRound (x * 100), rfl⟩

/-- On exact cent amounts, `roundToTwoDecimals` is the identity. -/
theorem roundToTwoDecimals_cents {q : ℚ} (h : Cents q) : roundToTwoDecimals q = q := by
  obtain ⟨z, rfl⟩ := h
  unfold roundToTwoDecimals jsRound
  have h100 : ((z : ℚ) / 100) * 100 = (z : ℚ) := by field_simp
  rw [h100]
  have : ⌊(z : ℚ) + 1/2⌋ = z := by
    rw [add_comm, Int.floor_add_int]
    norm_num
  rw [this]

/-- `jsRound` differs from its argument by at most one half. -/
theorem abs_sub_jsRound_le (x : ℚ) : |x - (jsRound x : ℚ)| ≤ 1/2 := by
  unfold jsRound
  have h1 : (⌊x + 1/2⌋ : ℚ) ≤ x + 1/2 := Int.floor_le _
  have h2 : x + 1/2 - 1 < (⌊x + 1/2⌋ : ℚ) := Int.sub_one_lt_floor _
  rw [abs_le]
  constructor <;> linarith

/-- Rounding to two decimals moves a value by at most half a cent. -/
theorem abs_sub_roundToTwoDecimals_le (x : ℚ) :
    |x - roundToTwoDecimals x| ≤ 1/200 := by
  unfold roundToTwoDecimals
  have h := abs_sub_jsRound_le (x * 100)
  have : x - (jsRound (x * 100) : ℚ) / 100 = (x * 100 - (jsRound (x * 100) : ℚ)) / 100 := by
    ring
  rw [this, abs_div]
  have h100 : |(100 : ℚ)| = 100 := by norm_num
  rw [h100]
  linarith [div_le_div_of_nonneg_right (c := (100 : ℚ)) h (by norm_num)]

/-- For nonnegative arguments the code rounding (`Math.round`, half
toward positive infinity) agrees with the specified half-away-from-zero
rounding. -/
theorem roundToTwoDecimals_eq_specRound2 {x : ℚ} (h : 0 ≤ x) :
    roundToTwoDecimals x = specRound2 x := by
  unfold roundToTwoDecimals specRound2 jsRound
  rw [if_pos h]

/-- Loan statuses, from the `LoanStatus` enum in `loan.model.ts`. -/
inductive LoanStatus
  | pending
  | under_review
  | approved
  | rejected
  | disbursed
  | active
  | completed
  | defaulted
deriving DecidableEq

/-- One entry of a loan's `statusHistory` (`IStatusChange`). -/
structure StatusChange where
  fromStatus : Option LoanStatus
  toStatus : LoanStatus
  reason : Option String
  performedBy : Nat
  timestamp : Nat
deriving DecidableEq

/-- Bank destination recorded on the loan (`bankDetails`). -/
structure BankDetails where
  accountNumber : String
  bankCode : String
deriving DecidableEq

/-- The mutable loan record.  Identifiers are modelled as naturals and
the Mongoose optimistic-concurrency counter `__v` as `version`. -/
structure Loan where
  id : Nat
  userId : Nat
  amount : ℚ
  tenor : ℕ
  interestRate : ℚ
  totalInterest : ℚ
  totalRepayable : ℚ
  monthlyPayment : ℚ
  status : LoanStatus
  statusHistory : List StatusChange
  approvedAmount : Option ℚ
  bankDetails : Option BankDetails
  disbursementRef : Option String
  providerReference : Option String
  totalRepaid : ℚ
  outstandingBalance : ℚ
  version : Nat
deriving DecidableEq

/-- Error taxonomy from `app-error.ts`, restricted to the kinds the
modelled operations raise. -/
inductive AppErr
  | notFound (msg : String)
  | validation (msg : String)
  | conflict (msg : String)
  | concurrency (msg : String)
  | invalidStateTransition (fromStatus toStatus : LoanStatus)
  | appError (msg : String)
deriving DecidableEq

/-- The `VALID_TRANSITIONS` table from `loan.model.ts`. -/
def validTransitions : LoanStatus → List LoanStatus
  | .pending => [.under_review]
  | .under_review => [.approved, .rejected]
  | .approved => [.disbursed]
  | .rejected => []
  | .disbursed => [.active]
  | .active => [.completed, .defaulted]
  | .completed => []
  | .defaulted => []

/-- Static `Loan.isValidTransition` from `loan.model.ts`. -/
def isValidTransition (fromStatus toStatus : LoanStatus) : Bool :=
  (validTransitions fromStatus).contains toStatus

/-- The instance method `transitionTo` from `loan.model.ts`: reject
illegal transitions, otherwise push a history entry and set the new
status. -/
def transitionTo (loan : Loan) (newStatus : LoanStatus) (performedBy : Nat)
    (reason : Option String) (now : Nat) : Except AppErr Loan :=
  if (validTransitions loan.status).contains newStatus then
    .ok { loan with
      statusHistory := loan.statusHistory ++
        [⟨some loan.status, newStatus, reason, performedBy, now⟩],
      status := newStatus }
  else
    .error (.invalidStateTransition loan.status newStatus)

/-- Loan creation: `LoanService.createLoan` composed with the
`pre('save')` hook of `loan.model.ts` for a new document.  The service
never passes `interestRate`, so the schema default `0.15` applies; the
hook derives the monetary figures and pushes the initial history entry.
(The single-active-loan check guards other loans and is not modelled
here.) -/
def createLoan (id userId : Nat) (amount : ℚ) (tenor : ℕ)
    (bank : Option BankDetails) (now : Nat) : Loan :=
  let interestRate : ℚ := 15/100
  let totalInterest := roundToTwoDecimals (calculateSimpleInterest amount interestRate tenor)
  let totalRepayable := roundToTwoDecimals (amount + totalInterest)
  let monthlyPayment := roundToTwoDecimals (calculateMonthlyPayment totalRepayable tenor)
  { id := id
    userId := userId
    amount := amount
    tenor := tenor
    interestRate := interestRate
    totalInterest := totalInterest
    totalRepayable := totalRepayable
    monthlyPayment := monthlyPayment
    status := .pending
    statusHistory := [⟨none, .pending, none, userId, now⟩]
    approvedAmount := none
    bankDetails := bank
    disbursementRef := none
    providerReference := none
    totalRepaid := 0
    outstandingBalance := totalRepayable
    version := 0 }

/-- `LoanService.approveLoan`: status checks, `finalAmount =
approvedAmount || loan.amount` (JavaScript treats `0` as absent),
transition, and inline re-derivation with `Math.round` when the
approved amount differs from the requested one. -/
def approveLoan (loan : Loan) (adminId : Nat) (approvedAmount : Option ℚ)
    (now : Nat) : Except AppErr Loan :=
  if loan.status = .approved then .ok loan
  else if loan.status ≠ .under_review then
    .error (.invalidStateTransition loan.status .approved)
  else
    let finalAmount :=
      match approvedAmount with
      | some a => if a = 0 then loan.amount else a
      | none => loan.amount
    if loan.amount < finalAmount then
      .error (.validation "Approved amount cannot exceed requested amount")
    else
      match transitionTo loan .approved adminId (some "Loan approved") now with
      | .error e => .error e
      | .ok l1 =>
        let l2 := { l1 with approvedAmount := some finalAmount }
        if finalAmount ≠ loan.amount then
          let totalInterest :=
            roundToTwoDecimals (finalAmount * loan.interestRate * ((loan.tenor : ℚ) / 12))
          let totalRepayable := roundToTwoDecimals (finalAmount + totalInterest)
          let monthlyPayment := roundToTwoDecimals (totalRepayable / (loan.tenor : ℚ))
          .ok { l2 with
            amount := finalAmount
            totalInterest := totalInterest
            totalRepayable := totalRepayable
            monthlyPayment := monthlyPayment
            outstandingBalance := totalRepayable }
        else .ok l2

/-- Installment statuses (`ScheduleStatus` in
`repayment-schedule.model.ts`).  The source's PARTIAL status is named
`part` here because its source spelling is reserved in Lean. -/
inductive ScheduleStatus
  | pending
  | part
  | paid
  | overdue
deriving DecidableEq

/-- One repayment-schedule installment
(`repayment-schedule.model.ts`). -/
structure Schedule where
  installmentNumber : ℕ
  principalAmount : ℚ
  interestAmount : ℚ
  totalAmount : ℚ
  paidAmount : ℚ
  status : ScheduleStatus
  paidAt : Option Nat
deriving DecidableEq

/-- The installment built for index `i ∈ [1, tenor]` by
`DisbursementService.generateRepaymentSchedule`: equal rounded shares
for every installment except the last, which receives the remainder
`totalPrincipal - principalPerInstallment * (tenor - 1)` (and likewise
for interest), rounded to two decimals. -/
def scheduleInstallment (totalPrincipal totalInterest : ℚ) (tenor i : ℕ) : Schedule :=
  let principalPerInstallment := roundToTwoDecimals (totalPrincipal / (tenor : ℚ))
  let interestPerInstallment := roundToTwoDecimals (totalInterest / (tenor : ℚ))
  if i = tenor then
    let paidPrincipal := principalPerInstallment * ((tenor : ℚ) - 1)
    let paidInterest := interestPerInstallment * ((tenor : ℚ) - 1)
    let principal := roundToTwoDecimals (totalPrincipal - paidPrincipal)
    let interest := roundToTwoDecimals (totalInterest - paidInterest)
    ⟨i, principal, interest, roundToTwoDecimals (principal + interest), 0, .pending, none⟩
  else
    ⟨i, principalPerInstallment, interestPerInstallment,
      roundToTwoDecimals (principalPerInstallment + interestPerInstallment), 0, .pending, none⟩

/-- `DisbursementService.generateRepaymentSchedule`, as a function of
the figures it reads from the loan. -/
def generateRepaymentSchedule (totalPrincipal totalInterest : ℚ) (tenor : ℕ) :
    List Schedule :=
  (List.range tenor).map (fun k => scheduleInstallment totalPrincipal totalInterest tenor (k + 1))

/-- Outcome of a disbursement attempt.  `failed` carries the loan
state as persisted when the error was raised (the service throws after
its compensating update has been written). -/
inductive DisburseResult
  | ok (loan : Loan) (schedules : List Schedule)
  | failed (err : AppErr) (loan : Loan)
deriving DecidableEq

/-- Whether a disbursement attempt succeeded. -/
def DisburseResult.isOk : DisburseResult → Bool
  | .ok _ _ => true
  | .failed _ _ => false

/-- `DisbursementService.disburseLoan`.  The provider outcome of the
external transfer is passed in (`providerSuccess`, `providerMessage`,
`providerRef`), the generated disbursement reference as `dref`.
Reservation is the conditional update `{status: approved,
disbursementRef absent}`; on provider failure the compensating update
reverts the status, unsets the reference and pushes a
`disbursed -> approved` history entry; on success the loan becomes
active and the repayment schedule is generated. -/
def disburseLoan (loan : Loan) (adminId : Nat) (dref : String)
    (providerSuccess : Bool) (providerMessage : String) (providerRef : String)
    (now : Nat) : DisburseResult :=
  match loan.bankDetails with
  | none => .failed (.appError "Bank details missing for this loan") loan
  | some _ =>
    if loan.status = .approved ∧ loan.disbursementRef = none then
      let l1 := { loan with
        status := LoanStatus.disbursed
        disbursementRef := some dref
        statusHistory := loan.statusHistory ++
          [(⟨some .approved, .disbursed, some "Loan disbursed", adminId, now⟩ : StatusChange)] }
      let disbursementAmount :=
        match loan.approvedAmount with
        | some a => if a = 0 then loan.amount else a
        | none => loan.amount
      if providerSuccess then
        let l2 := { l1 with
          status := LoanStatus.active
          providerReference := some providerRef
          statusHistory := l1.statusHistory ++
            [(⟨some .disbursed, .active,
              some "Funds transferred successfully, repayment started", adminId, now⟩ : StatusChange)] }
        .ok l2 (generateRepaymentSchedule disbursementAmount loan.totalInterest loan.tenor)
      else
        let l2 := { l1 with
          status := LoanStatus.approved
          disbursementRef := none
          statusHistory := l1.statusHistory ++
            [(⟨some .disbursed, .approved,
              some ("Disbursement failed: " ++ providerMessage), adminId, now⟩ : StatusChange)] }
        .failed (.appError ("Disbursement failed: " ++ providerMessage)) l2
    else if loan.status ≠ .approved then
      .failed (.invalidStateTransition loan.status .disbursed) loan
    else
      .failed (.conflict "Loan has already been disbursed") loan

/-- Payment kinds (`PaymentType` in `payment.model.ts`). -/
inductive PaymentType
  | repayment
  | refund
  | reversal
deriving DecidableEq

/-- Payment statuses (`PaymentStatus` in `payment.model.ts`). -/
inductive PaymentStatus
  | pending
  | processing
  | success
  | failed
deriving DecidableEq

/-- The `allocation` block stored on a payment. -/
structure Allocation where
  principal : ℚ
  interest : ℚ
  overpayment : ℚ
deriving DecidableEq

/-- A payment record (`payment.model.ts`), with the fields the
modelled operations read or write. -/
structure Payment where
  id : Nat
  loanId : Nat
  userId : Nat
  idempotencyKey : String
  type : PaymentType
  amount : ℚ
  reference : String
  status : PaymentStatus
  failureReason : Option String
  providerReference : Option String
  reconciled : Bool
  allocation : Option Allocation
  verifiedBy : Option Nat
  isOverpaymentRefunded : Bool
deriving DecidableEq

/-- A fresh payment document as `Payment.create` builds it: schema
defaults for every field not supplied by the caller. -/
def Payment.mk0 (id loanId userId : Nat) (key : String) (type : PaymentType)
    (amount : ℚ) (reference : String) (status : PaymentStatus) : Payment :=
  { id := id
    loanId := loanId
    userId := userId
    idempotencyKey := key
    type := type
    amount := amount
    reference := reference
    status := status
    failureReason := none
    providerReference := none
    reconciled := false
    allocation := none
    verifiedBy := none
    isOverpaymentRefunded := false }

/-- Per-loan persistent state: the loan document, its repayment
schedule (kept sorted by installment number) and its payments. -/
structure EngineState where
  loan : Loan
  schedules : List Schedule
  payments : List Payment
deriving DecidableEq

/-- The status filter of the outstanding-installments query:
`status ∈ {pending, partial, overdue}`. -/
def isOutstanding (s : Schedule) : Bool :=
  s.status = ScheduleStatus.pending ∨ s.status = ScheduleStatus.part ∨
    s.status = ScheduleStatus.overdue

/-- One allocation line reported by the repayment engine. -/
structure AllocationEntry where
  installmentNumber : ℕ
  amountApplied : ℚ
deriving DecidableEq

/-- The loan snapshot `processRepayment` returns. -/
structure LoanSnapshot where
  totalRepaid : ℚ
  outstandingBalance : ℚ
  status : LoanStatus
deriving DecidableEq

/-- Result shape of the repayment engine (`RepaymentResult`). -/
structure RepaymentResult where
  payment : Payment
  loan : LoanSnapshot
  allocations : List AllocationEntry
  overpayment : Option ℚ
deriving DecidableEq

/-- The FIFO allocation loop of `processRepayment` (and of
`verifyRepayment`): walk the schedule in order, skip installments that
the outstanding-status query would not return, stop once nothing
remains, apply `min(remaining, round2(totalAmount - paidAmount))` to
each installment and mark it paid or partial. -/
def allocateToSchedules (now : Nat) : List Schedule → ℚ →
    List Schedule × List AllocationEntry × ℚ
  | [], remaining => ([], [], remaining)
  | s :: rest, remaining =>
    if isOutstanding s = false then
      let r := allocateToSchedules now rest remaining
      (s :: r.1, r.2.1, r.2.2)
    else if remaining ≤ 0 then (s :: rest, [], remaining)
    else
      let outstandingOnSchedule := roundToTwoDecimals (s.totalAmount - s.paidAmount)
      let amountToApply := min remaining outstandingOnSchedule
      if 0 < amountToApply then
        let newPaid := roundToTwoDecimals (s.paidAmount + amountToApply)
        let s2 :=
          if s.totalAmount ≤ newPaid then
            { s with paidAmount := newPaid, status := ScheduleStatus.paid, paidAt := some now }
          else
            { s with paidAmount := newPaid, status := ScheduleStatus.part }
        let remaining2 := roundToTwoDecimals (remaining - amountToApply)
        let r := allocateToSchedules now rest remaining2
        (s2 :: r.1, ⟨s.installmentNumber, amountToApply⟩ :: r.2.1, r.2.2)
      else
        let r := allocateToSchedules now rest remaining
        (s :: r.1, r.2.1, r.2.2)

/-- The compare-and-set balance update of `processRepayment` and
`verifyRepayment`: `findOneAndUpdate({_id, __v: expectedVersion},
{$set: balances, $inc: {__v: 1}})`. -/
def loanBalanceCas (loan : Loan) (expectedVersion : Nat)
    (newTotalRepaid newOutstandingBalance : ℚ) : Option Loan :=
  if loan.version = expectedVersion then
    some { loan with
      totalRepaid := newTotalRepaid
      outstandingBalance := newOutstandingBalance
      version := loan.version + 1 }
  else none

/-- The balance update of `processRefund`:
`findByIdAndUpdate(loanId, {$inc: {totalRepaid: -amount,
outstandingBalance: amount}})` — unconditional, no version filter and
no version increment. -/
def refundLoanUpdate (loan : Loan) (amount : ℚ) : Loan :=
  { loan with
    totalRepaid := loan.totalRepaid - amount
    outstandingBalance := loan.outstandingBalance + amount }

/-- `PaymentService.processRepayment`.  `pid` is the id Mongo assigns
to the created payment document and `ref` its generated reference.
The idempotency short-circuit, the loan checks with their diagnostic
errors, the amount check, payment creation, FIFO allocation,
overpayment recording, the version CAS, completion (with its direct
`statusHistory` push and the version bump of the subsequent `save`)
and payment finalization follow the source order. -/
def processRepayment (st : EngineState) (loanId userId : Nat) (amount : ℚ)
    (key ref : String) (pid : Nat) (now : Nat) :
    Except AppErr (EngineState × RepaymentResult) :=
  match st.payments.find? (fun p => p.idempotencyKey == key) with
  | some existingPayment =>
    if existingPayment.status = PaymentStatus.success then
      .ok (st,
        { payment := existingPayment
          loan :=
            if st.loan.id = loanId then
              ⟨st.loan.totalRepaid, st.loan.outstandingBalance, st.loan.status⟩
            else ⟨0, 0, .active⟩
          allocations := []
          overpayment := none })
    else .error (.conflict "Payment with this idempotency key is already being processed")
  | none =>
    if st.loan.id = loanId ∧ st.loan.userId = userId ∧ st.loan.status = .active then
      if amount ≤ 0 then .error (.validation "Payment amount must be greater than 0")
      else
        let payment0 := Payment.mk0 pid loanId userId key .repayment amount ref .processing
        let alloc := allocateToSchedules now st.schedules amount
        let remaining := alloc.2.2
        let overpayment := if 0 < remaining then remaining else 0
        let payment1 :=
          if 0 < remaining then
            { payment0 with allocation := some ⟨amount - remaining, 0, remaining⟩ }
          else payment0
        let newTotalRepaid := roundToTwoDecimals (st.loan.totalRepaid + (amount - overpayment))
        let newOutstandingBalance := roundToTwoDecimals (st.loan.totalRepayable - newTotalRepaid)
        match loanBalanceCas st.loan st.loan.version newTotalRepaid newOutstandingBalance with
        | none => .error (.concurrency "Loan was modified by another process. Please retry.")
        | some l1 =>
          let l2 :=
            if newOutstandingBalance ≤ 0 then
              { l1 with
                status := LoanStatus.completed
                statusHistory := l1.statusHistory ++
                  [(⟨some .active, .completed, none, userId, now⟩ : StatusChange)]
                version := l1.version + 1 }
            else l1
          let payment2 := { payment1 with
            status := PaymentStatus.success
            reconciled := true }
          .ok ({ loan := l2
                 schedules := alloc.1
                 payments := st.payments ++ [payment2] },
               { payment := payment2
                 loan := ⟨newTotalRepaid, newOutstandingBalance, l2.status⟩
                 allocations := alloc.2.1
                 overpayment := if 0 < overpayment then some overpayment else none })
    else
      if st.loan.id ≠ loanId then .error (.notFound "Loan not found")
      else if st.loan.userId ≠ userId then .error (.notFound "Loan not found")
      else .error (.validation "Cannot make repayment on loan with this status")

/-- Outcome of `verifyRepayment`: either the proof was rejected (the
payment is failed, nothing else changes) or it was processed like a
repayment. -/
inductive VerifyOutcome
  | processed (result : RepaymentResult)
  | rejected (payment : Payment)
deriving DecidableEq

/-- Replace the payment with the given id (a `payment.save()` on a
fetched document). -/
def savePayment (payments : List Payment) (p : Payment) : List Payment :=
  payments.map (fun q => if q.id = p.id then p else q)

/-- `PaymentService.verifyRepayment`: operator verification of a
manual-proof payment.  On `failed` the payment is marked failed with
the operator's reason and nothing else changes.  On `success` the loan
must still be active; the engine then reruns allocation, the balance
CAS, and completion against the existing pending payment.  The
completion branch here sets the status and saves (bumping the version)
without pushing a `statusHistory` entry. -/
def verifyRepayment (st : EngineState) (paymentId adminId : Nat)
    (verdictSuccess : Bool) (reason : Option String) (now : Nat) :
    Except AppErr (EngineState × VerifyOutcome) :=
  match st.payments.find? (fun p => p.id == paymentId) with
  | none => .error (.notFound "Payment not found")
  | some payment =>
    if payment.status ≠ PaymentStatus.pending then
      .error (.validation "Payment is already settled")
    else if verdictSuccess = false then
      let p1 := { payment with
        status := PaymentStatus.failed
        failureReason := some (reason.getD "Admin rejected proof")
        verifiedBy := some adminId }
      .ok ({ st with payments := savePayment st.payments p1 }, .rejected p1)
    else if st.loan.id = payment.loanId ∧ st.loan.status = .active then
      let alloc := allocateToSchedules now st.schedules payment.amount
      let remaining := alloc.2.2
      let overpayment := if 0 < remaining then remaining else 0
      let p1 :=
        if 0 < remaining then
          { payment with allocation := some ⟨payment.amount - remaining, 0, remaining⟩ }
        else
          { payment with allocation := some ⟨payment.amount, 0, 0⟩ }
      let newTotalRepaid :=
        roundToTwoDecimals (st.loan.totalRepaid + (payment.amount - overpayment))
      let newOutstandingBalance :=
        roundToTwoDecimals (st.loan.totalRepayable - newTotalRepaid)
      match loanBalanceCas st.loan st.loan.version newTotalRepaid newOutstandingBalance with
      | none => .error (.concurrency "Loan modified by another process")
      | some l1 =>
        let l2 :=
          if newOutstandingBalance ≤ 0 then
            { l1 with status := LoanStatus.completed, version := l1.version + 1 }
          else l1
        let p2 := { p1 with
          status := PaymentStatus.success
          reconciled := true
          verifiedBy := some adminId }
        .ok ({ loan := l2
               schedules := alloc.1
               payments := savePayment st.payments p2 },
             .processed
               { payment := p2
                 loan := ⟨newTotalRepaid, newOutstandingBalance, l2.status⟩
                 allocations := alloc.2.1
                 overpayment := if 0 < overpayment then some overpayment else none })
    else .error (.validation "Loan is no longer active")

/-- `PaymentService.processRefund` (full refund, admin).  Checks only
that no payment carries the idempotency key and that the referenced
payment exists with status `success`; it checks neither the payment's
type nor any earlier refund.  On provider success the refund payment
becomes `success` and the loan balances are shifted by the original
amount through the unconditional `refundLoanUpdate`. -/
def processRefund (st : EngineState) (paymentId adminId : Nat)
    (key ref : String) (newId : Nat) (providerSuccess : Bool)
    (providerMessage providerRef : String) : Except AppErr (EngineState × Payment) :=
  match st.payments.find? (fun p => p.idempotencyKey == key) with
  | some existingRefund => .ok (st, existingRefund)
  | none =>
    match st.payments.find? (fun p => p.id == paymentId) with
    | none => .error (.notFound "Payment not found")
    | some originalPayment =>
      if originalPayment.status ≠ PaymentStatus.success then
        .error (.validation "Can only refund successful payments")
      else
        let refund0 := Payment.mk0 newId originalPayment.loanId originalPayment.userId
          key .refund originalPayment.amount ref .processing
        if providerSuccess then
          let refund1 := { refund0 with
            status := PaymentStatus.success
            providerReference := some providerRef
            reconciled := true }
          .ok ({ st with
                 loan := refundLoanUpdate st.loan originalPayment.amount
                 payments := st.payments ++ [refund1] },
               refund1)
        else
          let refund1 := { refund0 with
            status := PaymentStatus.failed
            failureReason := some providerMessage }
          .ok ({ st with payments := st.payments ++ [refund1] }, refund1)

/-- `PaymentService.refundOverpayment` (admin).  Resolves the refund
amount from the operator override (a JavaScript-truthy positive
`amount`) or else from the source payment's recorded
`allocation.overpayment`; rejects a second refund of the same source
payment via the `isOverpaymentRefunded` flag; on provider success
marks the source payment refunded.  The loan document is never
touched. -/
def refundOverpayment (st : EngineState) (paymentId adminId : Nat)
    (amountOverride : Option ℚ) (key ref : String) (newId : Nat)
    (providerSuccess : Bool) (providerMessage providerRef : String) :
    Except AppErr (EngineState × Payment) :=
  match st.payments.find? (fun p => p.idempotencyKey == key) with
  | some existingRefund => .ok (st, existingRefund)
  | none =>
    match st.payments.find? (fun p => p.id == paymentId) with
    | none => .error (.notFound "Payment not found")
    | some originalPayment =>
      if originalPayment.status ≠ PaymentStatus.success then
        .error (.validation "Can only refund successful payments")
      else
        let autoDetect : Except AppErr ℚ :=
          let overpayment :=
            match originalPayment.allocation with
            | some al => al.overpayment
            | none => 0
          if overpayment ≤ 0 then
            .error (.validation "This payment has no recorded overpayment. Please specify an amount.")
          else .ok overpayment
        let resolved : Except AppErr ℚ :=
          match amountOverride with
          | some a =>
            if 0 < a then
              if originalPayment.amount < a then
                .error (.validation "Refund amount cannot exceed original payment amount")
              else .ok a
            else autoDetect
          | none => autoDetect
        match resolved with
        | .error e => .error e
        | .ok refundAmount =>
          if originalPayment.isOverpaymentRefunded then
            .error (.conflict "Overpayment for this transaction has already been refunded")
          else
            let refund0 := Payment.mk0 newId originalPayment.loanId originalPayment.userId
              key .refund refundAmount ref .processing
            if providerSuccess then
              let refund1 := { refund0 with
                status := PaymentStatus.success
                providerReference := some providerRef
                reconciled := true
                verifiedBy := some adminId }
              let original1 := { originalPayment with isOverpaymentRefunded := true }
              .ok ({ st with
                     payments := savePayment st.payments original1 ++ [refund1] },
                   refund1)
            else
              let refund1 := { refund0 with
                status := PaymentStatus.failed
                failureReason := some providerMessage }
              .ok ({ st with payments := st.payments ++ [refund1] }, refund1)

/-- Sum of the unpaid remainders of the installments the
outstanding-status query returns. -/
def sumOutstanding : List Schedule → ℚ
  | [] => 0
  | s :: rest =>
    (if isOutstanding s then s.totalAmount - s.paidAmount else 0) + sumOutstanding rest

/-- Concrete bank details used in witnesses. -/
def exBank : BankDetails := ⟨"0123456789", "044"⟩

/-- A concrete approved loan awaiting disbursement. -/
def exApprovedLoan : Loan :=
  { id := 1
    userId := 2
    amount := 200
    tenor := 2
    interestRate := 15/100
    totalInterest := 5
    totalRepayable := 205
    monthlyPayment := 1025/10
    status := .approved
    statusHistory :=
      [⟨none, .pending, none, 2, 0⟩,
       ⟨some .pending, .under_review, some "Loan picked up for review", 7, 1⟩,
       ⟨some .under_review, .approved, some "Loan approved", 7, 2⟩]
    approvedAmount := some 200
    bankDetails := some exBank
    disbursementRef := none
    providerReference := none
    totalRepaid := 0
    outstandingBalance := 205
    version := 0 }

/-- A concrete active loan with two open installments of 100 each. -/
def exActiveLoan : Loan :=
  { id := 1
    userId := 2
    amount := 200
    tenor := 2
    interestRate := 0
    totalInterest := 0
    totalRepayable := 200
    monthlyPayment := 100
    status := .active
    statusHistory := []
    approvedAmount := none
    bankDetails := some exBank
    disbursementRef := some "DSB-0"
    providerReference := some "PROV-0"
    totalRepaid := 0
    outstandingBalance := 200
    version := 3 }

/-- An open installment of 100 with the given number. -/
def exSchedule (n : ℕ) : Schedule := ⟨n, 100, 0, 100, 0, .pending, none⟩

/-- Engine state of `exActiveLoan` with its two open installments. -/
def exState : EngineState := ⟨exActiveLoan, [exSchedule 1, exSchedule 2], []⟩

/-- On provider failure after a successful reservation, `disburseLoan`
performs exactly the compensating update: back to `approved`, the
reference unset, and the two history entries appended. -/
theorem disburseLoan_providerFailure (loan : Loan) (b : BankDetails) (adminId : Nat)
    (dref msg pref : String) (now : Nat)
    (hb : loan.bankDetails = some b) (hs : loan.status = .approved)
    (hr : loan.disbursementRef = none) :
    disburseLoan loan adminId dref false msg pref now =
      .failed (.appError ("Disbursement failed: " ++ msg))
        { loan with
          status := .approved
          disbursementRef := none
          statusHistory := loan.statusHistory ++
            [⟨some .approved, .disbursed, some "Loan disbursed", adminId, now⟩,
             ⟨some .disbursed, .approved, some ("Disbursement failed: " ++ msg), adminId, now⟩] } := by
  unfold disburseLoan
  rw [hb]
  rw [if_pos ⟨hs, hr⟩]
  simp

/-- On provider success, `disburseLoan` commits: the loan becomes
active and the repayment schedule is generated. -/
theorem disburseLoan_providerSuccess (loan : Loan) (b : BankDetails) (adminId : Nat)
    (dref msg pref : String) (now : Nat)
    (hb : loan.bankDetails = some b) (hs : loan.status = .approved)
    (hr : loan.disbursementRef = none) :
    (disburseLoan loan adminId dref true msg pref now).isOk = true := by
  unfold disburseLoan
  rw [hb]
  rw [if_pos ⟨hs, hr⟩]
  simp [DisburseResult.isOk]

/-- The loan persisted by the compensation branch of a concrete failed
disbursement attempt. -/
def c1CompensatedLoan : Loan :=
  match disburseLoan exApprovedLoan 7 "DSB-1" false "provider declined" "" 5 with
  | .failed _ l => l
  | .ok l _ => l

/-- Claim C1 (amended): a status transition through the state machine
(`transitionTo`) succeeds exactly when the requested pair is in the
legal set and records only legal pairs, every other request failing
with `InvalidTransition`; however, not every pair recorded in
`statusHistory` is legal — the disbursement compensation path writes a
`(disbursed, approved)` entry, and that pair is outside the legal
set. -/
theorem c1_legal_transitions :
    (∀ (loan l2 : Loan) (ns : LoanStatus) (u t : Nat) (r : Option String),
        transitionTo loan ns u r t = .ok l2 →
          isValidTransition loan.status ns = true ∧
          l2.statusHistory = loan.statusHistory ++ [⟨some loan.status, ns, r, u, t⟩] ∧
          l2.status = ns)
    ∧ (∀ (loan : Loan) (ns : LoanStatus) (u t : Nat) (r : Option String),
        isValidTransition loan.status ns = false →
          transitionTo loan ns u r t = .error (.invalidStateTransition loan.status ns))
    ∧ (∀ (loan : Loan) (b : BankDetails) (a t : Nat) (dref msg pref : String),
        loan.bankDetails = some b → loan.status = .approved → loan.disbursementRef = none →
          (∃ l2, disburseLoan loan a dref false msg pref t =
              .failed (.appError ("Disbursement failed: " ++ msg)) l2 ∧
            (⟨some .disbursed, .approved, some ("Disbursement failed: " ++ msg), a, t⟩ :
              StatusChange) ∈ l2.statusHistory) ∧
          isValidTransition .disbursed .approved = false) := by
  refine ⟨?_, ?_, ?_⟩
  · intro loan l2 ns u t r h
    unfold transitionTo at h
    split at h
    · rename_i hc
      refine ⟨by simpa [isValidTransition] using hc, ?_, ?_⟩
      · cases h
        rfl
      · cases h
        rfl
    · exact absurd h (by simp)
  · intro loan ns u t r h
    unfold transitionTo
    rw [if_neg]
    simpa [isValidTransition] using h
  · intro loan b a t dref msg pref hb hs hr
    refine ⟨⟨_, disburseLoan_providerFailure loan b a dref msg pref t hb hs hr, ?_⟩, by decide⟩
    simp

/-- Claim C1 counterexample: after a concrete failed disbursement, the
loan's history contains the pair `(disbursed, approved)`, which is not
in the legal transition set; so the claim that every recorded pair
(including the compensation pair) is legal is false. -/
theorem c1_counterexample :
    (disburseLoan exApprovedLoan 7 "DSB-1" false "provider declined" "" 5).isOk = false ∧
    ((some LoanStatus.disbursed, LoanStatus.approved) ∈
      c1CompensatedLoan.statusHistory.map (fun e => (e.fromStatus, e.toStatus))) ∧
    isValidTransition .disbursed .approved = false := by
  refine ⟨by decide, by decide, by decide⟩

/-- Witness for the amended C1 theorem at concrete inputs. -/
theorem c1_witness :
    (isValidTransition exActiveLoan.status .completed = true ∧
      ({ exActiveLoan with
          status := LoanStatus.completed
          statusHistory := exActiveLoan.statusHistory ++
            [⟨some .active, .completed, none, 7, 5⟩] } : Loan).statusHistory =
        exActiveLoan.statusHistory ++ [⟨some exActiveLoan.status, .completed, none, 7, 5⟩] ∧
      ({ exActiveLoan with
          status := LoanStatus.completed
          statusHistory := exActiveLoan.statusHistory ++
            [⟨some .active, .completed, none, 7, 5⟩] } : Loan).status = .completed) ∧
    (transitionTo exActiveLoan .pending 7 none 5 =
      .error (.invalidStateTransition exActiveLoan.status .pending)) ∧
    ((∃ l2, disburseLoan exApprovedLoan 7 "DSB-9" false "boom" "" 5 =
        .failed (.appError ("Disbursement failed: " ++ "boom")) l2 ∧
      (⟨some .disbursed, .approved, some ("Disbursement failed: " ++ "boom"), 7, 5⟩ :
        StatusChange) ∈ l2.statusHistory) ∧
      isValidTransition .disbursed .approved = false) := by
  refine ⟨?_, ?_, ?_⟩
  · exact c1_legal_transitions.1 exActiveLoan _ .completed 7 5 none rfl
  · exact c1_legal_transitions.2.1 exActiveLoan .pending 7 5 none (by decide)
  · exact c1_legal_transitions.2.2 exApprovedLoan exBank 7 5 "DSB-9" "boom" ""
      (by decide) (by decide) (by decide)

/-- Claim C7: when the provider transfer fails during disbursement of
an approved loan, the loan reverts to `approved`, the disbursement
reference is unset, the history gains both the `approved -> disbursed`
and the `disbursed -> approved` entry (the latter referencing the
provider message), no repayment schedule is created, and a subsequent
attempt with a fresh reference succeeds. -/
theorem c7_compensation_and_retry (loan : Loan) (b : BankDetails) (adminId now : Nat)
    (dref msg pref : String)
    (hb : loan.bankDetails = some b) (hs : loan.status = .approved)
    (hr : loan.disbursementRef = none) :
    ∃ l2, disburseLoan loan adminId dref false msg pref now =
        .failed (.appError ("Disbursement failed: " ++ msg)) l2 ∧
      l2.status = .approved ∧
      l2.disbursementRef = none ∧
      l2.statusHistory = loan.statusHistory ++
        [⟨some .approved, .disbursed, some "Loan disbursed", adminId, now⟩,
         ⟨some .disbursed, .approved, some ("Disbursement failed: " ++ msg), adminId, now⟩] ∧
      (∀ l3 scheds, disburseLoan loan adminId dref false msg pref now ≠ .ok l3 scheds) ∧
      (∀ dref2 msg2 pref2 now2,
        (disburseLoan l2 adminId dref2 true msg2 pref2 now2).isOk = true) := by
  refine ⟨_, disburseLoan_providerFailure loan b adminId dref msg pref now hb hs hr,
    rfl, rfl, rfl, ?_, ?_⟩
  · intro l3 scheds hcontra
    rw [disburseLoan_providerFailure loan b adminId dref msg pref now hb hs hr] at hcontra
    exact absurd hcontra (by simp)
  · intro dref2 msg2 pref2 now2
    exact disburseLoan_providerSuccess _ b adminId dref2 msg2 pref2 now2 hb rfl rfl

/-- Witness for C7 at concrete inputs. -/
theorem c7_witness :
    ∃ l2, disburseLoan exApprovedLoan 7 "DSB-1" false "provider declined" "" 5 =
        .failed (.appError ("Disbursement failed: " ++ "provider declined")) l2 ∧
      l2.status = .approved ∧
      l2.disbursementRef = none ∧
      l2.statusHistory = exApprovedLoan.statusHistory ++
        [⟨some .approved, .disbursed, some "Loan disbursed", 7, 5⟩,
         ⟨some .disbursed, .approved,
           some ("Disbursement failed: " ++ "provider declined"), 7, 5⟩] ∧
      (∀ l3 scheds,
        disburseLoan exApprovedLoan 7 "DSB-1" false "provider declined" "" 5 ≠ .ok l3 scheds) ∧
      (∀ dref2 msg2 pref2 now2,
        (disburseLoan l2 7 dref2 true msg2 pref2 now2).isOk = true) :=
  c7_compensation_and_retry exApprovedLoan exBank 7 5 "DSB-1" "provider declined" ""
    (by decide) (by decide) (by decide)

/-- Rounding a nonnegative value to two decimals stays nonnegative. -/
theorem roundToTwoDecimals_nonneg {x : ℚ} (h : 0 ≤ x) : 0 ≤ roundToTwoDecimals x := by
  unfold roundToTwoDecimals jsRound
  have hfl : (0 : ℤ) ≤ ⌊x * 100 + 1/2⌋ := by
    rw [Int.le_floor]
    push_cast
    nlinarith
  positivity

/-- The two-decimal ceiling produces an exact number of cents. -/
theorem cents_jsCeil2 (x : ℚ) : Cents (jsCeil2 x) := ⟨⌈x * 100⌉, rfl⟩

/-- Computation of `approveLoan` on an under-review loan with a
positive reduced amount: the transition succeeds and every monetary
figure is re-derived from the approved amount with `Math.round`. -/
theorem approveLoan_reduced (loan : Loan) (adminId t : Nat) (a : ℚ)
    (hs : loan.status = .under_review) (ha : a ≠ 0) (hlt : a < loan.amount) :
    approveLoan loan adminId (some a) t = .ok
      { loan with
        amount := a
        totalInterest := roundToTwoDecimals (a * loan.interestRate * ((loan.tenor : ℚ) / 12))
        totalRepayable := roundToTwoDecimals
          (a + roundToTwoDecimals (a * loan.interestRate * ((loan.tenor : ℚ) / 12)))
        monthlyPayment := roundToTwoDecimals
          (roundToTwoDecimals
              (a + roundToTwoDecimals (a * loan.interestRate * ((loan.tenor : ℚ) / 12)))
            / (loan.tenor : ℚ))
        status := .approved
        statusHistory := loan.statusHistory ++
          [⟨some loan.status, .approved, some "Loan approved", adminId, t⟩]
        approvedAmount := some a
        outstandingBalance := roundToTwoDecimals
          (a + roundToTwoDecimals (a * loan.interestRate * ((loan.tenor : ℚ) / 12))) } := by
  have hne : a ≠ loan.amount := ne_of_lt hlt
  have hnl : ¬ (loan.amount < a) := not_lt.mpr hlt.le
  unfold approveLoan transitionTo
  rw [hs]
  simp [ha, hne, hnl, validTransitions]

/-- Claim C3 (amended): on creation the engine derives
`totalInterest = round2(principal * rate * tenor/12)` and
`totalRepayable = round2(principal + totalInterest)` with round2 the
specified half-away-from-zero two-decimal rounding, sets
`outstandingBalance = totalRepayable` and `totalRepaid = 0`; but
`monthlyPayment` at creation is the two-decimal CEILING of
`totalRepayable / tenor` (the code uses `Math.ceil`), not round2.  On
approval with a reduced amount all figures are re-derived from the
approved amount, and there `monthlyPayment` does use round2;
`totalRepaid` is left unchanged rather than re-set. -/
theorem c3_monetary_derivation :
    (∀ (id u t : Nat) (amount : ℚ) (tenor : ℕ) (b : Option BankDetails) (l : Loan),
        l = createLoan id u amount tenor b t → 0 ≤ amount →
          l.totalInterest = specRound2 (amount * (15/100) * ((tenor : ℚ) / 12)) ∧
          l.totalRepayable = specRound2 (amount + l.totalInterest) ∧
          l.monthlyPayment = jsCeil2 (l.totalRepayable / (tenor : ℚ)) ∧
          l.outstandingBalance = l.totalRepayable ∧
          l.totalRepaid = 0)
    ∧ (∀ (loan l2 : Loan) (adminId t : Nat) (a : ℚ),
        loan.status = .under_review → 0 < a → a < loan.amount → 0 ≤ loan.interestRate →
        approveLoan loan adminId (some a) t = .ok l2 →
          l2.totalInterest = specRound2 (a * loan.interestRate * ((loan.tenor : ℚ) / 12)) ∧
          l2.totalRepayable = specRound2 (a + l2.totalInterest) ∧
          l2.monthlyPayment = specRound2 (l2.totalRepayable / (loan.tenor : ℚ)) ∧
          l2.outstandingBalance = l2.totalRepayable ∧
          l2.totalRepaid = loan.totalRepaid) := by
  constructor
  · intro id u t amount tenor b l hl hamt
    subst hl
    have hi : (0 : ℚ) ≤ amount * (15/100) * ((tenor : ℚ) / 12) := by positivity
    have hint : (createLoan id u amount tenor b t).totalInterest =
        roundToTwoDecimals (amount * (15/100) * ((tenor : ℚ) / 12)) := rfl
    have hintn : 0 ≤ (createLoan id u amount tenor b t).totalInterest := by
      rw [hint]
      exact roundToTwoDecimals_nonneg hi
    refine ⟨?_, ?_, ?_, rfl, rfl⟩
    · rw [hint, roundToTwoDecimals_eq_specRound2 hi]
    · show roundToTwoDecimals (amount + (createLoan id u amount tenor b t).totalInterest) = _
      exact roundToTwoDecimals_eq_specRound2 (by linarith)
    · show roundToTwoDecimals (calculateMonthlyPayment
          (createLoan id u amount tenor b t).totalRepayable tenor) = _
      unfold calculateMonthlyPayment
      exact roundToTwoDecimals_cents (cents_jsCeil2 _)
  · intro loan l2 adminId t a hs ha hlt hrate happrove
    rw [approveLoan_reduced loan adminId t a hs (ne_of_gt ha) hlt] at happrove
    injection happrove with hrec
    subst hrec
    have hi : (0 : ℚ) ≤ a * loan.interestRate * ((loan.tenor : ℚ) / 12) := by positivity
    have hintn : 0 ≤ roundToTwoDecimals (a * loan.interestRate * ((loan.tenor : ℚ) / 12)) :=
      roundToTwoDecimals_nonneg hi
    have hrep : 0 ≤ roundToTwoDecimals
        (a + roundToTwoDecimals (a * loan.interestRate * ((loan.tenor : ℚ) / 12))) :=
      roundToTwoDecimals_nonneg (by linarith)
    refine ⟨roundToTwoDecimals_eq_specRound2 hi, ?_, ?_, rfl, rfl⟩
    · exact roundToTwoDecimals_eq_specRound2 (by linarith)
    · exact roundToTwoDecimals_eq_specRound2 (by positivity)

/-- Claim C3 counterexample: for the concrete loan (amount 1000, tenor
3, default rate 0.15) the persisted `monthlyPayment` is 345.84, while
`round2(totalRepayable / tenor)` under the claimed half-away-from-zero
rounding is 345.83; the creation path rounds the monthly payment up,
not half-away-from-zero. -/
theorem c3_counterexample :
    (createLoan 1 2 1000 3 none 0).monthlyPayment = 8646/25 ∧
    specRound2 ((createLoan 1 2 1000 3 none 0).totalRepayable / (3 : ℚ)) = 34583/100 ∧
    (createLoan 1 2 1000 3 none 0).monthlyPayment ≠
      specRound2 ((createLoan 1 2 1000 3 none 0).totalRepayable / (3 : ℚ)) := by
  have h1 : (createLoan 1 2 1000 3 none 0).monthlyPayment = 8646/25 := by
    show roundToTwoDecimals (calculateMonthlyPayment
      (roundToTwoDecimals ((1000 : ℚ) + roundToTwoDecimals
        (calculateSimpleInterest 1000 (15/100) 3))) 3) = 8646/25
    norm_num [roundToTwoDecimals, jsRound, calculateSimpleInterest,
      calculateMonthlyPayment, jsCeil2]
    have hc : (⌈(103750 / 3 : ℚ)⌉ : ℤ) = 34584 := by
      rw [Int.ceil_eq_iff]
      norm_num
    rw [hc]
    norm_num
  have h2 : (createLoan 1 2 1000 3 none 0).totalRepayable = 2075/2 := by
    show roundToTwoDecimals ((1000 : ℚ) + roundToTwoDecimals
      (calculateSimpleInterest 1000 (15/100) 3)) = 2075/2
    norm_num [roundToTwoDecimals, jsRound, calculateSimpleInterest]
  have h3 : specRound2 ((2075/2 : ℚ) / 3) = 34583/100 := by
    norm_num [specRound2]
  refine ⟨h1, by rw [h2, h3], ?_⟩
  rw [h1, h2, h3]
  norm_num

/-- A concrete loan moved to review, used to witness the approval
re-derivation. -/
def exReviewLoan : Loan := { createLoan 1 2 1000 3 none 0 with status := .under_review }

/-- Witness for the amended C3 theorem at concrete inputs. -/
theorem c3_witness :
    ((createLoan 1 2 1000 3 none 0).totalInterest =
        specRound2 ((1000 : ℚ) * (15/100) * ((3 : ℕ) / 12 : ℚ)) ∧
      (createLoan 1 2 1000 3 none 0).totalRepayable =
        specRound2 (1000 + (createLoan 1 2 1000 3 none 0).totalInterest) ∧
      (createLoan 1 2 1000 3 none 0).monthlyPayment =
        jsCeil2 ((createLoan 1 2 1000 3 none 0).totalRepayable / ((3 : ℕ) : ℚ)) ∧
      (createLoan 1 2 1000 3 none 0).outstandingBalance =
        (createLoan 1 2 1000 3 none 0).totalRepayable ∧
      (createLoan 1 2 1000 3 none 0).totalRepaid = 0) ∧
    (∀ l2 : Loan,
      approveLoan exReviewLoan 7 (some 600) 4 = .ok l2 →
        l2.totalInterest =
          specRound2 ((600 : ℚ) * exReviewLoan.interestRate * ((exReviewLoan.tenor : ℚ) / 12)) ∧
        l2.totalRepayable = specRound2 (600 + l2.totalInterest) ∧
        l2.monthlyPayment = specRound2 (l2.totalRepayable / (exReviewLoan.tenor : ℚ)) ∧
        l2.outstandingBalance = l2.totalRepayable ∧
        l2.totalRepaid = exReviewLoan.totalRepaid) := by
  constructor
  · exact c3_monetary_derivation.1 1 2 0 1000 3 none _ rfl (by norm_num)
  · intro l2 h
    exact c3_monetary_derivation.2 exReviewLoan l2 7 4 600 rfl (by norm_num)
      (by norm_num [exReviewLoan, createLoan]) (by norm_num [exReviewLoan, createLoan]) h

/-- The loan after the concrete repayment of 100 on `exState`. -/
def exLoanAfter1 : Loan :=
  { exActiveLoan with totalRepaid := 100, outstandingBalance := 100, version := 4 }

/-- The first installment of `exState` marked paid at time 5. -/
def exSchedPaid1 : Schedule := ⟨1, 100, 0, 100, 100, .paid, some 5⟩

/-- The successful payment record created by the concrete repayment. -/
def exPayment1 : Payment :=
  { Payment.mk0 10 1 2 "k1" .repayment 100 "PAY-1" .processing with
    status := PaymentStatus.success
    reconciled := true }

/-- Engine state after the concrete repayment of 100 on `exState`. -/
def exStateAfter1 : EngineState := ⟨exLoanAfter1, [exSchedPaid1, exSchedule 2], [exPayment1]⟩

/-- Result of the concrete repayment of 100 on `exState`. -/
def exRes1 : RepaymentResult := ⟨exPayment1, ⟨100, 100, .active⟩, [⟨1, 100⟩], none⟩

/-- Concrete run: repaying 100 against `exState` pays installment 1 in
full and leaves the loan active with balance 100. -/
theorem processRepayment_exState_run :
    processRepayment exState 1 2 100 "k1" "PAY-1" 10 5 = .ok (exStateAfter1, exRes1) := by
  norm_num [processRepayment, exState, exActiveLoan, exSchedule, allocateToSchedules,
    isOutstanding, roundToTwoDecimals, jsRound, loanBalanceCas, Payment.mk0,
    exStateAfter1, exLoanAfter1, exSchedPaid1, exPayment1, exRes1]

/-- Claim C2 (amended): `transitionTo` appends a `statusHistory` entry
recording `(from, to, reason, performedBy, timestamp)`, and the direct
repayment path appends the matching `active -> completed` entry when a
repayment drives the balance to zero or below; but the manual-proof
verification path does not: `verifyRepayment` never changes
`statusHistory`, even when it completes the loan. -/
theorem c2_history_append :
    (∀ (loan l2 : Loan) (ns : LoanStatus) (u t : Nat) (r : Option String),
        transitionTo loan ns u r t = .ok l2 →
          l2.statusHistory = loan.statusHistory ++ [⟨some loan.status, ns, r, u, t⟩])
    ∧ (∀ (st : EngineState) (loanId userId pid now : Nat) (amount : ℚ) (key ref : String)
        (st2 : EngineState) (res : RepaymentResult),
        st.payments.find? (fun p => p.idempotencyKey == key) = none →
        processRepayment st loanId userId amount key ref pid now = .ok (st2, res) →
        st2.loan.status = .completed →
          st2.loan.statusHistory = st.loan.statusHistory ++
            [⟨some .active, .completed, none, userId, now⟩])
    ∧ (∀ (st : EngineState) (paymentId adminId : Nat) (v : Bool) (r : Option String)
        (now : Nat) (st2 : EngineState) (out : VerifyOutcome),
        verifyRepayment st paymentId adminId v r now = .ok (st2, out) →
          st2.loan.statusHistory = st.loan.statusHistory) := by
  refine ⟨?_, ?_, ?_⟩
  · intro loan l2 ns u t r h
    unfold transitionTo at h
    split at h
    · cases h
      rfl
    · exact absurd h (by simp)
  · intro st loanId userId pid now amount key ref st2 res hfresh hok hdone
    unfold processRepayment at hok
    rw [hfresh] at hok
    split at hok
    · rename_i p hcontra
      exact Option.noConfusion hcontra
    · split at hok
      · rename_i hguard
        split at hok
        · exact absurd hok (by simp)
        · simp only [loanBalanceCas, eq_self_iff_true, if_true] at hok
          split at hok <;> split at hok <;> cases hok <;>
            first
            | rfl
            | (rw [hguard.2.2] at hdone; exact absurd hdone (by simp))
      · split at hok
        · exact absurd hok (by simp)
        · split at hok
          · exact absurd hok (by simp)
          · exact absurd hok (by simp)
  · intro st paymentId adminId v r now st2 out hok
    unfold verifyRepayment at hok
    split at hok
    · exact absurd hok (by simp)
    · split at hok
      · exact absurd hok (by simp)
      · split at hok
        · cases hok
          rfl
        · split at hok
          · simp only [loanBalanceCas, eq_self_iff_true, if_true] at hok
            split at hok <;> split at hok <;> cases hok <;> rfl
          · exact absurd hok (by simp)

/-- A concrete pending manual-proof payment of 200. -/
def exPendingPayment : Payment := Payment.mk0 20 1 2 "mk" .repayment 200 "MAN-1" .pending

/-- Engine state with `exActiveLoan`, its two open installments and the
pending manual-proof payment. -/
def exVerifyState : EngineState :=
  ⟨exActiveLoan, [exSchedule 1, exSchedule 2], [exPendingPayment]⟩

/-- The loan persisted by verifying the concrete manual proof: both
installments covered, loan completed, history untouched. -/
def c2VerifiedLoan : Loan :=
  { exActiveLoan with
    totalRepaid := 200, outstandingBalance := 0,
    status := LoanStatus.completed, version := 5 }

/-- The settled manual-proof payment after verification. -/
def c2VerifiedPayment : Payment :=
  { exPendingPayment with
    status := PaymentStatus.success
    reconciled := true
    verifiedBy := some 7
    allocation := some ⟨200, 0, 0⟩ }

/-- Full engine state after verifying the concrete manual proof. -/
def c2VerifiedState : EngineState :=
  ⟨c2VerifiedLoan,
   [⟨1, 100, 0, 100, 100, .paid, some 9⟩, ⟨2, 100, 0, 100, 100, .paid, some 9⟩],
   [c2VerifiedPayment]⟩

/-- Concrete run: verifying the 200 manual proof settles both
installments and completes the loan. -/
theorem verifyRepayment_exVerifyState_run :
    verifyRepayment exVerifyState 20 7 true none 9 =
      .ok (c2VerifiedState,
        .processed ⟨c2VerifiedPayment, ⟨200, 0, .completed⟩, [⟨1, 100⟩, ⟨2, 100⟩], none⟩) := by
  norm_num [verifyRepayment, exVerifyState, exActiveLoan, exSchedule, exPendingPayment,
    Payment.mk0, allocateToSchedules, isOutstanding, roundToTwoDecimals, jsRound,
    loanBalanceCas, savePayment, c2VerifiedState, c2VerifiedLoan, c2VerifiedPayment]

/-- Claim C2 counterexample: verifying the concrete 200 manual proof
completes the loan (balance reaches 0) yet appends no `statusHistory`
entry — the history is empty before and after, with no
`active -> completed` record. -/
theorem c2_counterexample :
    verifyRepayment exVerifyState 20 7 true none 9 =
      .ok (c2VerifiedState,
        .processed ⟨c2VerifiedPayment, ⟨200, 0, .completed⟩, [⟨1, 100⟩, ⟨2, 100⟩], none⟩) ∧
    c2VerifiedState.loan.status = .completed ∧
    exVerifyState.loan.statusHistory = [] ∧
    c2VerifiedState.loan.statusHistory = [] := by
  refine ⟨verifyRepayment_exVerifyState_run, rfl,
    by norm_num [exVerifyState, exActiveLoan],
    by norm_num [c2VerifiedState, c2VerifiedLoan, exActiveLoan]⟩

/-- The loan after the concrete overpayment run: repaying 250 against
`exState` (outstanding 200) completes the loan and pushes the
`active -> completed` history entry. -/
def exOverpayLoan : Loan :=
  { exActiveLoan with
    totalRepaid := 200, outstandingBalance := 0,
    status := LoanStatus.completed
    statusHistory := [⟨some .active, .completed, none, 2, 7⟩]
    version := 5 }

/-- The successful overpaying payment with its recorded allocation. -/
def exOverpayPayment : Payment :=
  { Payment.mk0 12 1 2 "k9" .repayment 250 "PAY-9" .processing with
    allocation := some ⟨200, 0, 50⟩
    status := PaymentStatus.success
    reconciled := true }

/-- Engine state after the concrete overpayment run. -/
def exOverpayState : EngineState :=
  ⟨exOverpayLoan,
   [⟨1, 100, 0, 100, 100, .paid, some 7⟩, ⟨2, 100, 0, 100, 100, .paid, some 7⟩],
   [exOverpayPayment]⟩

/-- Concrete run: repaying 250 against `exState` completes the loan
with overpayment 50. -/
theorem processRepayment_overpay_run :
    processRepayment exState 1 2 250 "k9" "PAY-9" 12 7 =
      .ok (exOverpayState,
        ⟨exOverpayPayment, ⟨200, 0, .completed⟩, [⟨1, 100⟩, ⟨2, 100⟩], some 50⟩) := by
  norm_num [processRepayment, exState, exActiveLoan, exSchedule, allocateToSchedules,
    isOutstanding, roundToTwoDecimals, jsRound, loanBalanceCas, Payment.mk0,
    exOverpayState, exOverpayLoan, exOverpayPayment]

/-- Witness for the amended C2 theorem at concrete inputs. -/
theorem c2_witness :
    (({ exActiveLoan with
          status := LoanStatus.completed
          statusHistory := exActiveLoan.statusHistory ++
            [⟨some .active, .completed, none, 7, 5⟩] } : Loan).statusHistory =
        exActiveLoan.statusHistory ++ [⟨some exActiveLoan.status, .completed, none, 7, 5⟩]) ∧
    (exOverpayState.loan.statusHistory = exState.loan.statusHistory ++
        [⟨some .active, .completed, none, 2, 7⟩]) ∧
    (c2VerifiedState.loan.statusHistory = exVerifyState.loan.statusHistory) := by
  refine ⟨?_, ?_, ?_⟩
  · exact c2_history_append.1 exActiveLoan _ .completed 7 5 none rfl
  · exact c2_history_append.2.1 exState 1 2 12 7 250 "k9" "PAY-9" exOverpayState
      ⟨exOverpayPayment, ⟨200, 0, .completed⟩, [⟨1, 100⟩, ⟨2, 100⟩], some 50⟩
      rfl processRepayment_overpay_run rfl
  · exact c2_history_append.2.2 exVerifyState 20 7 true none 9 c2VerifiedState
      (.processed ⟨c2VerifiedPayment, ⟨200, 0, .completed⟩, [⟨1, 100⟩, ⟨2, 100⟩], none⟩)
      verifyRepayment_exVerifyState_run

/-- Claim C5 (amended): a repeated `processRepayment` with the key of
an existing successful payment creates no second Payment row and
changes nothing: it returns the stored payment with the CURRENT loan
snapshot and EMPTY allocations (so the response body is not in general
identical to the first response, whose allocations are the applied
installments); a key whose payment is pending or processing fails with
the in-flight conflict. -/
theorem c5_idempotency :
    (∀ (st : EngineState) (loanId userId pid now : Nat) (amount : ℚ) (key ref : String)
        (p : Payment),
        st.payments.find? (fun q => q.idempotencyKey == key) = some p →
        p.status = .success → st.loan.id = loanId →
          processRepayment st loanId userId amount key ref pid now =
            .ok (st, ⟨p, ⟨st.loan.totalRepaid, st.loan.outstandingBalance, st.loan.status⟩,
              [], none⟩))
    ∧ (∀ (st : EngineState) (loanId userId pid now : Nat) (amount : ℚ) (key ref : String)
        (p : Payment),
        st.payments.find? (fun q => q.idempotencyKey == key) = some p →
        (p.status = .pending ∨ p.status = .processing) →
          processRepayment st loanId userId amount key ref pid now =
            .error (.conflict "Payment with this idempotency key is already being processed")) := by
  constructor
  · intro st loanId userId pid now amount key ref p hfind hstat hid
    unfold processRepayment
    rw [hfind]
    simp [hstat, hid]
  · intro st loanId userId pid now amount key ref p hfind hstat
    unfold processRepayment
    rw [hfind]
    rcases hstat with h | h <;> simp [h]

/-- Claim C5 counterexample: the first repayment response carries the
allocation to installment 1, the replay with the same key carries an
empty allocation list; the two response bodies differ. -/
theorem c5_counterexample :
    processRepayment exState 1 2 100 "k1" "PAY-1" 10 5 = .ok (exStateAfter1, exRes1) ∧
    processRepayment exStateAfter1 1 2 100 "k1" "PAY-2" 11 6 =
      .ok (exStateAfter1, ⟨exPayment1, ⟨100, 100, .active⟩, [], none⟩) ∧
    exRes1 ≠ ⟨exPayment1, ⟨100, 100, .active⟩, [], none⟩ := by
  refine ⟨processRepayment_exState_run, ?_, ?_⟩
  · norm_num [processRepayment, exStateAfter1, exLoanAfter1, exActiveLoan, exPayment1,
      Payment.mk0, exSchedPaid1, exSchedule]
  · simp [exRes1]

/-- Witness for the amended C5 theorem at concrete inputs. -/
theorem c5_witness :
    (processRepayment exStateAfter1 1 2 100 "k1" "PAY-2" 11 6 =
      .ok (exStateAfter1, ⟨exPayment1,
        ⟨exStateAfter1.loan.totalRepaid, exStateAfter1.loan.outstandingBalance,
          exStateAfter1.loan.status⟩, [], none⟩)) ∧
    (processRepayment exVerifyState 1 2 100 "mk" "PAY-3" 12 6 =
      .error (.conflict "Payment with this idempotency key is already being processed")) := by
  constructor
  · exact c5_idempotency.1 exStateAfter1 1 2 11 6 100 "k1" "PAY-2" exPayment1 rfl rfl rfl
  · exact c5_idempotency.2 exVerifyState 1 2 12 6 100 "mk" "PAY-3" exPendingPayment rfl
      (Or.inl rfl)

/-- Claim C6 (amended): the balance updates of the repayment and
verification paths are version compare-and-sets — a stale expected
version yields no update (surfaced as the retryable concurrency
fault), a matching one writes the balances and increments the version,
so both paths strictly increase the loan version; but the full-refund
path (`processRefund`, via `refundLoanUpdate`) updates the balances
unconditionally, with no version check and no version increment. -/
theorem c6_version_cas :
    (∀ (loan : Loan) (v : Nat) (nt no : ℚ),
        v ≠ loan.version → loanBalanceCas loan v nt no = none)
    ∧ (∀ (loan : Loan) (nt no : ℚ),
        loanBalanceCas loan loan.version nt no =
          some { loan with
            totalRepaid := nt, outstandingBalance := no, version := loan.version + 1 })
    ∧ (∀ (st : EngineState) (loanId userId pid now : Nat) (amount : ℚ) (key ref : String)
        (st2 : EngineState) (res : RepaymentResult),
        st.payments.find? (fun p => p.idempotencyKey == key) = none →
        processRepayment st loanId userId amount key ref pid now = .ok (st2, res) →
          st.loan.version < st2.loan.version)
    ∧ (∀ (st : EngineState) (paymentId adminId : Nat) (v : Bool) (r : Option String)
        (now : Nat) (st2 : EngineState) (resOut : RepaymentResult),
        verifyRepayment st paymentId adminId v r now = .ok (st2, .processed resOut) →
          st.loan.version < st2.loan.version) := by
  refine ⟨?_, ?_, ?_, ?_⟩
  · intro loan v nt no hne
    unfold loanBalanceCas
    rw [if_neg (fun hcc => hne hcc.symm)]
  · intro loan nt no
    unfold loanBalanceCas
    rw [if_pos rfl]
  · intro st loanId userId pid now amount key ref st2 res hfresh hok
    unfold processRepayment at hok
    rw [hfresh] at hok
    split at hok
    · rename_i p hcontra
      exact Option.noConfusion hcontra
    · split at hok
      · split at hok
        · exact absurd hok (by simp)
        · simp only [loanBalanceCas, eq_self_iff_true, if_true] at hok
          split at hok <;> split at hok <;> cases hok <;>
            first
            | exact Nat.lt_succ_self _
            | exact Nat.lt_succ_of_lt (Nat.lt_succ_self _)
      · split at hok
        · exact absurd hok (by simp)
        · split at hok
          · exact absurd hok (by simp)
          · exact absurd hok (by simp)
  · intro st paymentId adminId v r now st2 resOut hok
    unfold verifyRepayment at hok
    split at hok
    · exact absurd hok (by simp)
    · split at hok
      · exact absurd hok (by simp)
      · split at hok
        · exact absurd hok (by simp)
        · split at hok
          · simp only [loanBalanceCas, eq_self_iff_true, if_true] at hok
            split at hok <;> split at hok <;> cases hok <;>
              first
              | exact Nat.lt_succ_self _
              | exact Nat.lt_succ_of_lt (Nat.lt_succ_self _)
          · exact absurd hok (by simp)

/-- A successful 100 repayment row eligible for a full refund. -/
def exSuccessPayment : Payment :=
  { Payment.mk0 30 1 2 "ks" .repayment 100 "PAY-S" .success with reconciled := true }

/-- Engine state whose loan has repaid 100 of 200, holding the
successful payment row. -/
def exRefundState : EngineState :=
  ⟨{ exActiveLoan with totalRepaid := 100, outstandingBalance := 100 }, [],
   [exSuccessPayment]⟩

/-- The refund payment row the concrete full refund creates. -/
def exRefundPayment : Payment :=
  { Payment.mk0 31 1 2 "rk1" .refund 100 "RFD-1" .processing with
    status := PaymentStatus.success
    providerReference := some "PROV-1"
    reconciled := true }

/-- Engine state after the concrete full refund: debt restored, loan
version untouched. -/
def exRefundStateAfter : EngineState :=
  ⟨{ exActiveLoan with totalRepaid := 0, outstandingBalance := 200 }, [],
   [exSuccessPayment, exRefundPayment]⟩

/-- Concrete run: fully refunding the successful 100 payment restores
the debt on the loan without touching the version. -/
theorem processRefund_exRefundState_run :
    processRefund exRefundState 30 7 "rk1" "RFD-1" 31 true "ok" "PROV-1" =
      .ok (exRefundStateAfter, exRefundPayment) := by
  norm_num [processRefund, exRefundState, exActiveLoan, exSuccessPayment, Payment.mk0,
    refundLoanUpdate, exRefundStateAfter, exRefundPayment,
    (by decide : ("ks" : String) ≠ "rk1"), (by decide : (30 : Nat) ≠ 31)]

/-- Claim C6 counterexample: the concrete full refund changes
`totalRepaid` (100 to 0) while leaving `version` at 3 — a
balance-affecting update that is neither version-conditioned nor
version-incrementing. -/
theorem c6_counterexample :
    processRefund exRefundState 30 7 "rk1" "RFD-1" 31 true "ok" "PROV-1" =
      .ok (exRefundStateAfter, exRefundPayment) ∧
    exRefundStateAfter.loan.totalRepaid ≠ exRefundState.loan.totalRepaid ∧
    exRefundStateAfter.loan.version = exRefundState.loan.version := by
  refine ⟨processRefund_exRefundState_run, ?_, rfl⟩
  norm_num [exRefundStateAfter, exRefundState, exActiveLoan]

/-- Witness for the amended C6 theorem at concrete inputs. -/
theorem c6_witness :
    loanBalanceCas exActiveLoan 99 5 5 = none ∧
    loanBalanceCas exActiveLoan exActiveLoan.version 5 5 =
      some { exActiveLoan with
        totalRepaid := 5, outstandingBalance := 5, version := exActiveLoan.version + 1 } ∧
    exState.loan.version < exStateAfter1.loan.version ∧
    exVerifyState.loan.version < c2VerifiedState.loan.version := by
  refine ⟨?_, ?_, ?_, ?_⟩
  · exact c6_version_cas.1 exActiveLoan 99 5 5 (by norm_num [exActiveLoan])
  · exact c6_version_cas.2.1 exActiveLoan 5 5
  · exact c6_version_cas.2.2.1 exState 1 2 10 5 100 "k1" "PAY-1" exStateAfter1 exRes1 rfl
      processRepayment_exState_run
  · exact c6_version_cas.2.2.2 exVerifyState 20 7 true none 9 c2VerifiedState
      ⟨c2VerifiedPayment, ⟨200, 0, .completed⟩, [⟨1, 100⟩, ⟨2, 100⟩], none⟩
      verifyRepayment_exVerifyState_run

/-- The refund payment row `refundOverpayment` persists on provider
success, written out for stating results. -/
def overpayRefundRecord (orig : Payment) (adminId newId : Nat)
    (key ref pref : String) (amt : ℚ) : Payment :=
  { Payment.mk0 newId orig.loanId orig.userId key .refund amt ref .processing with
    status := PaymentStatus.success
    providerReference := some pref
    reconciled := true
    verifiedBy := some adminId }

/-- Claim C9: `refundOverpayment` refunds exactly the recorded
`allocation.overpayment` (or an operator-specified amount bounded by
the original payment amount), sets the source payment's
`isOverpaymentRefunded` flag on success, leaves the loan document —
hence `totalRepaid` and `outstandingBalance` — untouched, rejects an
override above the original amount, and fails a second refund of the
same source payment with the already-refunded conflict. -/
theorem c9_overpayment_refund :
    (∀ (st : EngineState) (paymentId adminId newId : Nat) (key ref pmsg pref : String)
        (orig : Payment) (al : Allocation),
        st.payments.find? (fun p => p.idempotencyKey == key) = none →
        st.payments.find? (fun p => p.id == paymentId) = some orig →
        orig.status = .success → orig.allocation = some al → 0 < al.overpayment →
        orig.isOverpaymentRefunded = false →
          refundOverpayment st paymentId adminId none key ref newId true pmsg pref =
            .ok (⟨st.loan, st.schedules,
                  savePayment st.payments { orig with isOverpaymentRefunded := true } ++
                    [overpayRefundRecord orig adminId newId key ref pref al.overpayment]⟩,
                 overpayRefundRecord orig adminId newId key ref pref al.overpayment))
    ∧ (∀ (st : EngineState) (paymentId adminId newId : Nat) (key ref pmsg pref : String)
        (orig : Payment) (a : ℚ),
        st.payments.find? (fun p => p.idempotencyKey == key) = none →
        st.payments.find? (fun p => p.id == paymentId) = some orig →
        orig.status = .success → 0 < a → a ≤ orig.amount →
        orig.isOverpaymentRefunded = false →
          refundOverpayment st paymentId adminId (some a) key ref newId true pmsg pref =
            .ok (⟨st.loan, st.schedules,
                  savePayment st.payments { orig with isOverpaymentRefunded := true } ++
                    [overpayRefundRecord orig adminId newId key ref pref a]⟩,
                 overpayRefundRecord orig adminId newId key ref pref a))
    ∧ (∀ (st : EngineState) (paymentId adminId newId : Nat) (key ref pmsg pref : String)
        (orig : Payment) (a : ℚ),
        st.payments.find? (fun p => p.idempotencyKey == key) = none →
        st.payments.find? (fun p => p.id == paymentId) = some orig →
        orig.status = .success → 0 < a → orig.amount < a →
          refundOverpayment st paymentId adminId (some a) key ref newId true pmsg pref =
            .error (.validation "Refund amount cannot exceed original payment amount"))
    ∧ (∀ (st : EngineState) (paymentId adminId newId : Nat) (key ref pmsg pref : String)
        (orig : Payment) (al : Allocation),
        st.payments.find? (fun p => p.idempotencyKey == key) = none →
        st.payments.find? (fun p => p.id == paymentId) = some orig →
        orig.status = .success → orig.allocation = some al → 0 < al.overpayment →
        orig.isOverpaymentRefunded = true →
          refundOverpayment st paymentId adminId none key ref newId true pmsg pref =
            .error (.conflict "Overpayment for this transaction has already been refunded")) := by
  refine ⟨?_, ?_, ?_, ?_⟩
  · intro st paymentId adminId newId key ref pmsg pref orig al hk hp hs halloc hpos hflag
    unfold refundOverpayment
    rw [hk, hp]
    simp [hs, halloc, hflag, not_le.mpr hpos, overpayRefundRecord]
  · intro st paymentId adminId newId key ref pmsg pref orig a hk hp hs ha hle hflag
    unfold refundOverpayment
    rw [hk, hp]
    simp [hs, ha, hflag, not_lt.mpr hle, overpayRefundRecord]
  · intro st paymentId adminId newId key ref pmsg pref orig a hk hp hs ha hgt
    unfold refundOverpayment
    rw [hk, hp]
    simp [hs, ha, hgt]
  · intro st paymentId adminId newId key ref pmsg pref orig al hk hp hs halloc hpos hflag
    unfold refundOverpayment
    rw [hk, hp]
    simp [hs, halloc, hflag, not_le.mpr hpos]

/-- The source payment of the concrete overpayment refund with its
flag set. -/
def exFlaggedPayment : Payment := { exOverpayPayment with isOverpaymentRefunded := true }

/-- Engine state holding the already-refunded source payment. -/
def exFlaggedState : EngineState := ⟨exOverpayLoan, [], [exFlaggedPayment]⟩

/-- Witness for C9 at concrete inputs: auto-detected refund of the 50
overpayment, an operator override of 60, an override above the
original amount rejected, and the second refund rejected. -/
theorem c9_witness :
    (refundOverpayment exOverpayState 12 7 none "ok1" "RFD-3" 41 true "m" "PROV-3" =
      .ok (⟨exOverpayState.loan, exOverpayState.schedules,
            savePayment exOverpayState.payments
              { exOverpayPayment with isOverpaymentRefunded := true } ++
              [overpayRefundRecord exOverpayPayment 7 41 "ok1" "RFD-3" "PROV-3" 50]⟩,
           overpayRefundRecord exOverpayPayment 7 41 "ok1" "RFD-3" "PROV-3" 50)) ∧
    (refundOverpayment exOverpayState 12 7 (some 60) "ok1" "RFD-3" 41 true "m" "PROV-3" =
      .ok (⟨exOverpayState.loan, exOverpayState.schedules,
            savePayment exOverpayState.payments
              { exOverpayPayment with isOverpaymentRefunded := true } ++
              [overpayRefundRecord exOverpayPayment 7 41 "ok1" "RFD-3" "PROV-3" 60]⟩,
           overpayRefundRecord exOverpayPayment 7 41 "ok1" "RFD-3" "PROV-3" 60)) ∧
    (refundOverpayment exOverpayState 12 7 (some 300) "ok1" "RFD-3" 41 true "m" "PROV-3" =
      .error (.validation "Refund amount cannot exceed original payment amount")) ∧
    (refundOverpayment exFlaggedState 12 7 none "ok2" "RFD-4" 42 true "m" "PROV-4" =
      .error (.conflict "Overpayment for this transaction has already been refunded")) := by
  refine ⟨?_, ?_, ?_, ?_⟩
  · exact c9_overpayment_refund.1 exOverpayState 12 7 41 "ok1" "RFD-3" "m" "PROV-3"
      exOverpayPayment ⟨200, 0, 50⟩ rfl rfl rfl rfl (by norm_num) rfl
  · exact c9_overpayment_refund.2.1 exOverpayState 12 7 41 "ok1" "RFD-3" "m" "PROV-3"
      exOverpayPayment 60 rfl rfl rfl (by norm_num)
      (by norm_num [exOverpayPayment, Payment.mk0]) rfl
  · exact c9_overpayment_refund.2.2.1 exOverpayState 12 7 41 "ok1" "RFD-3" "m" "PROV-3"
      exOverpayPayment 300 rfl rfl rfl (by norm_num)
      (by norm_num [exOverpayPayment, Payment.mk0])
  · exact c9_overpayment_refund.2.2.2 exFlaggedState 12 7 42 "ok2" "RFD-4" "m" "PROV-4"
      exFlaggedPayment ⟨200, 0, 50⟩ rfl rfl rfl rfl (by norm_num) rfl

/-- The refund payment row `processRefund` persists on provider
success, written out for stating results. -/
def fullRefundRecord (orig : Payment) (newId : Nat) (key ref pref : String) : Payment :=
  { Payment.mk0 newId orig.loanId orig.userId key .refund orig.amount ref .processing with
    status := PaymentStatus.success
    providerReference := some pref
    reconciled := true }

/-- General successful `processRefund` run: the only preconditions are
a fresh idempotency key and a referenced payment with status
`success` — neither the payment's type nor any prior refund of it is
checked. -/
theorem processRefund_success (st : EngineState) (paymentId adminId newId : Nat)
    (key ref pmsg pref : String) (orig : Payment)
    (hk : st.payments.find? (fun p => p.idempotencyKey == key) = none)
    (hp : st.payments.find? (fun p => p.id == paymentId) = some orig)
    (hs : orig.status = .success) :
    processRefund st paymentId adminId key ref newId true pmsg pref =
      .ok (⟨refundLoanUpdate st.loan orig.amount, st.schedules,
            st.payments ++ [fullRefundRecord orig newId key ref pref]⟩,
           fullRefundRecord orig newId key ref pref) := by
  unfold processRefund
  rw [hk, hp]
  simp [hs, fullRefundRecord]

/-- Claim C10: `processRefund` requires only that the referenced
payment exists with status `success` and that the idempotency key is
fresh; it checks neither the payment's type nor prior refunds, so it
creates a success refund row and shifts the loan balances by the
payment amount — and a second call with a fresh key does it all
again. -/
theorem c10_unrestricted_refund (st : EngineState)
    (paymentId adminId newId newId2 : Nat)
    (key ref key2 ref2 pmsg pmsg2 pref pref2 : String) (orig : Payment)
    (hk : st.payments.find? (fun p => p.idempotencyKey == key) = none)
    (hp : st.payments.find? (fun p => p.id == paymentId) = some orig)
    (hs : orig.status = .success)
    (hk2a : st.payments.find? (fun p => p.idempotencyKey == key2) = none)
    (hkne : key2 ≠ key) :
    processRefund st paymentId adminId key ref newId true pmsg pref =
      .ok (⟨refundLoanUpdate st.loan orig.amount, st.schedules,
            st.payments ++ [fullRefundRecord orig newId key ref pref]⟩,
           fullRefundRecord orig newId key ref pref) ∧
    (fullRefundRecord orig newId key ref pref).type = .refund ∧
    (fullRefundRecord orig newId key ref pref).status = .success ∧
    (fullRefundRecord orig newId key ref pref).amount = orig.amount ∧
    (refundLoanUpdate st.loan orig.amount).totalRepaid
      = st.loan.totalRepaid - orig.amount ∧
    (refundLoanUpdate st.loan orig.amount).outstandingBalance
      = st.loan.outstandingBalance + orig.amount ∧
    processRefund
        ⟨refundLoanUpdate st.loan orig.amount, st.schedules,
         st.payments ++ [fullRefundRecord orig newId key ref pref]⟩
        paymentId adminId key2 ref2 newId2 true pmsg2 pref2 =
      .ok (⟨refundLoanUpdate (refundLoanUpdate st.loan orig.amount) orig.amount,
            st.schedules,
            (st.payments ++ [fullRefundRecord orig newId key ref pref]) ++
              [fullRefundRecord orig newId2 key2 ref2 pref2]⟩,
           fullRefundRecord orig newId2 key2 ref2 pref2) ∧
    (refundLoanUpdate (refundLoanUpdate st.loan orig.amount) orig.amount).totalRepaid
      = st.loan.totalRepaid - orig.amount - orig.amount := by
  have hk2 : (st.payments ++ [fullRefundRecord orig newId key ref pref]).find?
      (fun p => p.idempotencyKey == key2) = none := by
    rw [List.find?_append, hk2a]
    have hb : (key == key2) = false := beq_eq_false_iff_ne.mpr (fun h => hkne (Eq.symm h))
    simp [List.find?, fullRefundRecord, Payment.mk0, hb]
  have hp2 : (st.payments ++ [fullRefundRecord orig newId key ref pref]).find?
      (fun p => p.id == paymentId) = some orig := by
    rw [List.find?_append, hp]
    rfl
  refine ⟨processRefund_success st paymentId adminId newId key ref pmsg pref orig hk hp hs,
    rfl, rfl, rfl, rfl, rfl, ?_, rfl⟩
  exact processRefund_success _ paymentId adminId newId2 key2 ref2 pmsg2 pref2 orig hk2 hp2 hs

/-- Witness for C10 at concrete inputs: the successful 100 repayment is
refunded twice under fresh keys, driving `totalRepaid` from 100 to
-100. -/
theorem c10_witness :
    processRefund exRefundState 30 7 "rk1" "RFD-1" 31 true "ok" "PROV-1" =
      .ok (⟨refundLoanUpdate exRefundState.loan exSuccessPayment.amount,
            exRefundState.schedules,
            exRefundState.payments ++
              [fullRefundRecord exSuccessPayment 31 "rk1" "RFD-1" "PROV-1"]⟩,
           fullRefundRecord exSuccessPayment 31 "rk1" "RFD-1" "PROV-1") ∧
    (fullRefundRecord exSuccessPayment 31 "rk1" "RFD-1" "PROV-1").type = .refund ∧
    (fullRefundRecord exSuccessPayment 31 "rk1" "RFD-1" "PROV-1").status = .success ∧
    (fullRefundRecord exSuccessPayment 31 "rk1" "RFD-1" "PROV-1").amount
      = exSuccessPayment.amount ∧
    (refundLoanUpdate exRefundState.loan exSuccessPayment.amount).totalRepaid
      = exRefundState.loan.totalRepaid - exSuccessPayment.amount ∧
    (refundLoanUpdate exRefundState.loan exSuccessPayment.amount).outstandingBalance
      = exRefundState.loan.outstandingBalance + exSuccessPayment.amount ∧
    processRefund
        ⟨refundLoanUpdate exRefundState.loan exSuccessPayment.amount,
         exRefundState.schedules,
         exRefundState.payments ++
           [fullRefundRecord exSuccessPayment 31 "rk1" "RFD-1" "PROV-1"]⟩
        30 7 "rk2" "RFD-2" 32 true "ok" "PROV-2" =
      .ok (⟨refundLoanUpdate (refundLoanUpdate exRefundState.loan exSuccessPayment.amount)
              exSuccessPayment.amount,
            exRefundState.schedules,
            (exRefundState.payments ++
              [fullRefundRecord exSuccessPayment 31 "rk1" "RFD-1" "PROV-1"]) ++
              [fullRefundRecord exSuccessPayment 32 "rk2" "RFD-2" "PROV-2"]⟩,
           fullRefundRecord exSuccessPayment 32 "rk2" "RFD-2" "PROV-2") ∧
    (refundLoanUpdate (refundLoanUpdate exRefundState.loan exSuccessPayment.amount)
        exSuccessPayment.amount).totalRepaid
      = exRefundState.loan.totalRepaid - exSuccessPayment.amount - exSuccessPayment.amount :=
  c10_unrestricted_refund exRefundState 30 7 31 32 "rk1" "RFD-1" "rk2" "RFD-2"
    "ok" "ok" "PROV-1" "PROV-2" exSuccessPayment rfl rfl rfl rfl (by decide)

/-- Multiplying a cent amount by `(N : ℚ) - 1` (for `N ≥ 1`) keeps it
a cent amount. -/
theorem cents_mul_natsub {p : ℚ} (N : ℕ) (hN : 1 ≤ N) (hp : Cents p) :
    Cents (p * ((N : ℚ) - 1)) := by
  have h1 : ((N : ℚ) - 1) = ((N - 1 : ℕ) : ℚ) := by
    rw [Nat.cast_sub hN, Nat.cast_one]
  rw [h1, mul_comm]
  exact cents_nat_mul _ hp

/-- The exact residue identity behind the last installment: the first
`N - 1` rounded shares plus the rounded remainder reconstitute the
total, for cent-valued totals. -/
theorem share_residue_sum (P : ℚ) (N : ℕ) (hN : 1 ≤ N) (hP : Cents P) :
    ((N : ℚ) - 1) * roundToTwoDecimals (P / (N : ℚ)) +
      roundToTwoDecimals (P - roundToTwoDecimals (P / (N : ℚ)) * ((N : ℚ) - 1)) = P := by
  have hc : Cents (P - roundToTwoDecimals (P / (N : ℚ)) * ((N : ℚ) - 1)) :=
    cents_sub hP (cents_mul_natsub N hN (cents_roundToTwoDecimals _))
  rw [roundToTwoDecimals_cents hc]
  ring

/-- The rounded equal share times the tenor differs from the total by
at most half a cent per installment. -/
theorem abs_residue_le (P : ℚ) (N : ℕ) (hN : 1 ≤ N) :
    |P - (N : ℚ) * roundToTwoDecimals (P / (N : ℚ))| ≤ (N : ℚ) / 200 := by
  have hNpos : (0 : ℚ) < N := by exact_mod_cast hN
  have h := abs_sub_roundToTwoDecimals_le (P / (N : ℚ))
  have heq : P - (N : ℚ) * roundToTwoDecimals (P / (N : ℚ)) =
      (N : ℚ) * (P / (N : ℚ) - roundToTwoDecimals (P / (N : ℚ))) := by
    field_simp
  rw [heq, abs_mul, abs_of_pos hNpos]
  calc (N : ℚ) * |P / (N : ℚ) - roundToTwoDecimals (P / (N : ℚ))|
      ≤ (N : ℚ) * (1 / 200) := mul_le_mul_of_nonneg_left h (le_of_lt hNpos)
    _ = (N : ℚ) / 200 := by ring

/-- The non-last installments of a generated schedule all carry the
equal rounded shares. -/
theorem scheduleInstallment_mid (P I : ℚ) (N i : ℕ) (hi : i ≠ N) :
    scheduleInstallment P I N i =
      ⟨i, roundToTwoDecimals (P / (N : ℚ)), roundToTwoDecimals (I / (N : ℚ)),
        roundToTwoDecimals (P / (N : ℚ)) + roundToTwoDecimals (I / (N : ℚ)),
        0, .pending, none⟩ := by
  unfold scheduleInstallment
  rw [if_neg hi]
  have hc : Cents (roundToTwoDecimals (P / (N : ℚ)) + roundToTwoDecimals (I / (N : ℚ))) :=
    cents_add (cents_roundToTwoDecimals _) (cents_roundToTwoDecimals _)
  rw [roundToTwoDecimals_cents hc]

/-- The principal and interest amounts of the last installment, with
the two-decimal rounding collapsed on cent-valued totals. -/
theorem scheduleInstallment_last (P I : ℚ) (N : ℕ) (hN : 1 ≤ N)
    (hP : Cents P) (hI : Cents I) :
    (scheduleInstallment P I N N).principalAmount =
      P - roundToTwoDecimals (P / (N : ℚ)) * ((N : ℚ) - 1) ∧
    (scheduleInstallment P I N N).interestAmount =
      I - roundToTwoDecimals (I / (N : ℚ)) * ((N : ℚ) - 1) ∧
    (scheduleInstallment P I N N).totalAmount =
      (P - roundToTwoDecimals (P / (N : ℚ)) * ((N : ℚ) - 1)) +
        (I - roundToTwoDecimals (I / (N : ℚ)) * ((N : ℚ) - 1)) := by
  have hcP : Cents (P - roundToTwoDecimals (P / (N : ℚ)) * ((N : ℚ) - 1)) :=
    cents_sub hP (cents_mul_natsub N hN (cents_roundToTwoDecimals _))
  have hcI : Cents (I - roundToTwoDecimals (I / (N : ℚ)) * ((N : ℚ) - 1)) :=
    cents_sub hI (cents_mul_natsub N hN (cents_roundToTwoDecimals _))
  unfold scheduleInstallment
  rw [if_pos rfl]
  refine ⟨roundToTwoDecimals_cents hcP, roundToTwoDecimals_cents hcI, ?_⟩
  show roundToTwoDecimals
      (roundToTwoDecimals (P - roundToTwoDecimals (P / (N : ℚ)) * ((N : ℚ) - 1)) +
        roundToTwoDecimals (I - roundToTwoDecimals (I / (N : ℚ)) * ((N : ℚ) - 1))) = _
  rw [roundToTwoDecimals_cents hcP, roundToTwoDecimals_cents hcI]
  exact roundToTwoDecimals_cents (cents_add hcP hcI)

/-- The mapped principal amounts of a generated schedule: `N - 1`
equal shares and the residue. -/
theorem generateRepaymentSchedule_map_principal (P I : ℚ) (M : ℕ) :
    (generateRepaymentSchedule P I (M + 1)).map Schedule.principalAmount =
      List.replicate M (roundToTwoDecimals (P / ((M + 1 : ℕ) : ℚ))) ++
        [(scheduleInstallment P I (M + 1) (M + 1)).principalAmount] := by
  unfold generateRepaymentSchedule
  rw [List.range_succ, List.map_append, List.map_append, List.map_map]
  congr 1
  · have hcong : ∀ k ∈ List.range M,
        (Schedule.principalAmount ∘ fun k => scheduleInstallment P I (M + 1) (k + 1)) k =
          roundToTwoDecimals (P / ((M + 1 : ℕ) : ℚ)) := by
      intro k hk
      have hkM : k + 1 ≠ M + 1 := by
        have := List.mem_range.mp hk
        omega
      simp [Function.comp, scheduleInstallment_mid P I (M + 1) (k + 1) hkM]
    rw [List.map_congr_left hcong]
    simp [List.map_const', List.length_range]

/-- The mapped interest amounts of a generated schedule. -/
theorem generateRepaymentSchedule_map_interest (P I : ℚ) (M : ℕ) :
    (generateRepaymentSchedule P I (M + 1)).map Schedule.interestAmount =
      List.replicate M (roundToTwoDecimals (I / ((M + 1 : ℕ) : ℚ))) ++
        [(scheduleInstallment P I (M + 1) (M + 1)).interestAmount] := by
  unfold generateRepaymentSchedule
  rw [List.range_succ, List.map_append, List.map_append, List.map_map]
  congr 1
  · have hcong : ∀ k ∈ List.range M,
        (Schedule.interestAmount ∘ fun k => scheduleInstallment P I (M + 1) (k + 1)) k =
          roundToTwoDecimals (I / ((M + 1 : ℕ) : ℚ)) := by
      intro k hk
      have hkM : k + 1 ≠ M + 1 := by
        have := List.mem_range.mp hk
        omega
      simp [Function.comp, scheduleInstallment_mid P I (M + 1) (k + 1) hkM]
    rw [List.map_congr_left hcong]
    simp [List.map_const', List.length_range]

/-- Claim C8 (amended): in every generated schedule with tenor `N ≥ 1`
and cent-valued principal `P` and interest `I`, each installment
`i < N` carries `principalShare = round2(P/N)` and
`interestShare = round2(I/N)`, the last installment absorbs the exact
residues `P - (N-1)·round2(P/N)` and `I - (N-1)·round2(I/N)`, the
shares sum exactly to `P` and `I`; but the last installment's total
can differ from the others' by up to `N` cents (bounded here by
`N/100` currency units), not by at most 1 cent. -/
theorem c8_schedule_shares (P I : ℚ) (N : ℕ) (hN : 1 ≤ N) (hP : Cents P) (hI : Cents I) :
    (generateRepaymentSchedule P I N).length = N ∧
    (∀ i : ℕ, 1 ≤ i → i < N →
      scheduleInstallment P I N i =
        ⟨i, roundToTwoDecimals (P / (N : ℚ)), roundToTwoDecimals (I / (N : ℚ)),
          roundToTwoDecimals (P / (N : ℚ)) + roundToTwoDecimals (I / (N : ℚ)),
          0, .pending, none⟩) ∧
    (scheduleInstallment P I N N).principalAmount =
      P - roundToTwoDecimals (P / (N : ℚ)) * ((N : ℚ) - 1) ∧
    (scheduleInstallment P I N N).interestAmount =
      I - roundToTwoDecimals (I / (N : ℚ)) * ((N : ℚ) - 1) ∧
    ((generateRepaymentSchedule P I N).map Schedule.principalAmount).sum = P ∧
    ((generateRepaymentSchedule P I N).map Schedule.interestAmount).sum = I ∧
    |(scheduleInstallment P I N N).totalAmount -
        (roundToTwoDecimals (P / (N : ℚ)) + roundToTwoDecimals (I / (N : ℚ)))| ≤
      (N : ℚ) / 100 := by
  obtain ⟨M, rfl⟩ : ∃ M, N = M + 1 := ⟨N - 1, (Nat.succ_pred_eq_of_pos hN).symm⟩
  obtain ⟨hlP, hlI, hlT⟩ := scheduleInstallment_last P I (M + 1) hN hP hI
  refine ⟨?_, ?_, hlP, hlI, ?_, ?_, ?_⟩
  · simp [generateRepaymentSchedule]
  · intro i hi1 hiN
    exact scheduleInstallment_mid P I (M + 1) i (by omega)
  · rw [generateRepaymentSchedule_map_principal P I M, List.sum_append, List.sum_replicate,
      List.sum_cons, List.sum_nil, hlP, nsmul_eq_mul]
    have := share_residue_sum P (M + 1) hN hP
    push_cast at this ⊢
    linarith
  · rw [generateRepaymentSchedule_map_interest P I M, List.sum_append, List.sum_replicate,
      List.sum_cons, List.sum_nil, hlI, nsmul_eq_mul]
    have := share_residue_sum I (M + 1) hN hI
    push_cast at this ⊢
    linarith
  · rw [hlT]
    have hresP := abs_residue_le P (M + 1) hN
    have hresI := abs_residue_le I (M + 1) hN
    have hsplit :
        P - roundToTwoDecimals (P / ((M + 1 : ℕ) : ℚ)) * (((M + 1 : ℕ) : ℚ) - 1) +
            (I - roundToTwoDecimals (I / ((M + 1 : ℕ) : ℚ)) * (((M + 1 : ℕ) : ℚ) - 1)) -
            (roundToTwoDecimals (P / ((M + 1 : ℕ) : ℚ)) +
              roundToTwoDecimals (I / ((M + 1 : ℕ) : ℚ))) =
          (P - ((M + 1 : ℕ) : ℚ) * roundToTwoDecimals (P / ((M + 1 : ℕ) : ℚ))) +
            (I - ((M + 1 : ℕ) : ℚ) * roundToTwoDecimals (I / ((M + 1 : ℕ) : ℚ))) := by
      ring
    rw [hsplit]
    calc |(P - ((M + 1 : ℕ) : ℚ) * roundToTwoDecimals (P / ((M + 1 : ℕ) : ℚ))) +
            (I - ((M + 1 : ℕ) : ℚ) * roundToTwoDecimals (I / ((M + 1 : ℕ) : ℚ)))|
        ≤ |P - ((M + 1 : ℕ) : ℚ) * roundToTwoDecimals (P / ((M + 1 : ℕ) : ℚ))| +
            |I - ((M + 1 : ℕ) : ℚ) * roundToTwoDecimals (I / ((M + 1 : ℕ) : ℚ))| :=
          abs_add _ _
      _ ≤ ((M + 1 : ℕ) : ℚ) / 200 + ((M + 1 : ℕ) : ℚ) / 200 := add_le_add hresP hresI
      _ = ((M + 1 : ℕ) : ℚ) / 100 := by ring

/-- Claim C8 counterexample: with principal 1000.04, interest 125 and
tenor 10 (a legal loan: amount at least 1000, tenor in range), the
first nine installments total 112.50 each while the last totals
112.54 — the last installment absorbs 4 cents, more than the claimed
1 cent. -/
theorem c8_counterexample :
    scheduleInstallment (100004/100) 125 10 1 ∈ generateRepaymentSchedule (100004/100) 125 10 ∧
    scheduleInstallment (100004/100) 125 10 10 ∈ generateRepaymentSchedule (100004/100) 125 10 ∧
    (scheduleInstallment (100004/100) 125 10 1).totalAmount = 1125/10 ∧
    (scheduleInstallment (100004/100) 125 10 10).totalAmount = 5627/50 ∧
    ¬ |(scheduleInstallment (100004/100) 125 10 10).totalAmount -
        (scheduleInstallment (100004/100) 125 10 1).totalAmount| ≤ 1/100 := by
  refine ⟨?_, ?_, ?_, ?_, ?_⟩
  · exact List.mem_map.mpr ⟨0, by simp [List.mem_range], rfl⟩
  · exact List.mem_map.mpr ⟨9, by simp [List.mem_range], rfl⟩
  · norm_num [scheduleInstallment, roundToTwoDecimals, jsRound]
  · norm_num [scheduleInstallment, roundToTwoDecimals, jsRound]
  · norm_num [scheduleInstallment, roundToTwoDecimals, jsRound, abs_le]

/-- Witness for the amended C8 theorem at the counterexample inputs:
the shares of the tenor-10 schedule on principal 1000.04 and interest
125 sum exactly to the totals. -/
theorem c8_witness :
    ((generateRepaymentSchedule (100004/100) 125 10).map Schedule.principalAmount).sum =
      100004/100 ∧
    ((generateRepaymentSchedule (100004/100) 125 10).map Schedule.interestAmount).sum = 125 := by
  have h := c8_schedule_shares (100004/100) 125 10 (by norm_num)
    ⟨100004, by norm_num⟩ ⟨12500, by norm_num⟩
  exact ⟨h.2.2.2.2.1, h.2.2.2.2.2.1⟩

/-- The unpaid remainders of outstanding installments are nonnegative
when installment data is well formed. -/
theorem sumOutstanding_nonneg (l : List Schedule)
    (hp : ∀ s ∈ l, isOutstanding s = true → s.paidAmount < s.totalAmount) :
    0 ≤ sumOutstanding l := by
  induction l with
  | nil => simp [sumOutstanding]
  | cons s rest ih =>
    have h2 := ih (fun x hx hox => hp x (List.mem_cons_of_mem s hx) hox)
    have h1 : 0 ≤ (if isOutstanding s then s.totalAmount - s.paidAmount else 0) := by
      split
      · have := hp s (List.mem_cons_self s rest) (by assumption)
        linarith
      · exact le_refl 0
    unfold sumOutstanding
    linarith

/-- The outstanding total is an exact number of cents when all
installment figures are. -/
theorem cents_sumOutstanding (l : List Schedule)
    (hc : ∀ s ∈ l, Cents s.totalAmount ∧ Cents s.paidAmount) :
    Cents (sumOutstanding l) := by
  induction l with
  | nil => exact cents_zero
  | cons s rest ih =>
    have hcs := hc s (List.mem_cons_self s rest)
    have h2 := ih (fun x hx => hc x (List.mem_cons_of_mem s hx))
    unfold sumOutstanding
    refine cents_add ?_ h2
    split
    · exact cents_sub hcs.1 hcs.2
    · exact cents_zero


/-- When the amount strictly exceeds the total outstanding, the FIFO
allocation loop pays every outstanding installment in full, reports
one allocation line per outstanding installment, and leaves exactly
the excess. -/
theorem allocate_all_paid (now : Nat) (l : List Schedule) (remaining : ℚ)
    (hc : ∀ s ∈ l, Cents s.totalAmount ∧ Cents s.paidAmount)
    (hp : ∀ s ∈ l, isOutstanding s = true → s.paidAmount < s.totalAmount)
    (hrc : Cents remaining)
    (hbig : sumOutstanding l < remaining) :
    allocateToSchedules now l remaining =
      (l.map (fun s => if isOutstanding s = true then
          { s with paidAmount := s.totalAmount, status := ScheduleStatus.paid, paidAt := some now }
        else s),
       (l.filter (fun s => isOutstanding s)).map
         (fun s => ⟨s.installmentNumber, s.totalAmount - s.paidAmount⟩),
       remaining - sumOutstanding l) := by
  induction l generalizing remaining with
  | nil => simp [allocateToSchedules, sumOutstanding]
  | cons s rest ih =>
    have hcs := hc s (List.mem_cons_self s rest)
    have hcr : ∀ x ∈ rest, Cents x.totalAmount ∧ Cents x.paidAmount :=
      fun x hx => hc x (List.mem_cons_of_mem s hx)
    have hpr : ∀ x ∈ rest, isOutstanding x = true → x.paidAmount < x.totalAmount :=
      fun x hx => hp x (List.mem_cons_of_mem s hx)
    have hrestnn : 0 ≤ sumOutstanding rest := sumOutstanding_nonneg rest hpr
    cases hos : isOutstanding s with
    | false =>
      have hsum : sumOutstanding (s :: rest) = sumOutstanding rest := by
        simp [sumOutstanding, hos]
      rw [hsum] at hbig
      have hrec := ih remaining hcr hpr hrc hbig
      simp only [allocateToSchedules, hos, hrec, hsum]
      simp [hos]
    | true =>
      have hlt : s.paidAmount < s.totalAmount := hp s (List.mem_cons_self s rest) hos
      have hsum : sumOutstanding (s :: rest) =
          (s.totalAmount - s.paidAmount) + sumOutstanding rest := by
        simp [sumOutstanding, hos]
      have hout : Cents (s.totalAmount - s.paidAmount) := cents_sub hcs.1 hcs.2
      have hge : s.totalAmount - s.paidAmount ≤ remaining := by
        rw [hsum] at hbig; linarith
      have hpos0 : ¬ remaining ≤ 0 := by rw [hsum] at hbig; push_neg; linarith
      have hrc2 : Cents (remaining - (s.totalAmount - s.paidAmount)) := cents_sub hrc hout
      have hbig2 : sumOutstanding rest < remaining - (s.totalAmount - s.paidAmount) := by
        rw [hsum] at hbig; linarith
      have hrec := ih (remaining - (s.totalAmount - s.paidAmount)) hcr hpr hrc2 hbig2
      simp only [allocateToSchedules, hos, Bool.true_eq_false, if_false, if_neg hpos0,
        roundToTwoDecimals_cents hout, min_eq_right hge,
        if_pos (by linarith : (0:ℚ) < s.totalAmount - s.paidAmount)]
      rw [show s.paidAmount + (s.totalAmount - s.paidAmount) = s.totalAmount by ring]
      rw [roundToTwoDecimals_cents hcs.1]
      rw [if_pos (le_refl s.totalAmount)]
      rw [roundToTwoDecimals_cents hrc2]
      rw [hrec]
      simp [hos, hsum]
      ring

/-- The payment record the overpaying repayment persists: allocation
`(amount - overpayment, 0, overpayment)` with
`overpayment = amount - outstandingBalance`, finalized as success. -/
def c4Payment (pid loanId userId : Nat) (key ref : String) (amount oB : ℚ) : Payment :=
  { Payment.mk0 pid loanId userId key .repayment amount ref .processing with
    allocation := some ⟨amount - (amount - oB), 0, amount - oB⟩
    status := PaymentStatus.success
    reconciled := true }

/-- Claim C4: when an active loan's outstanding installments sum to
its `outstandingBalance`, its records are cent-valued and satisfy
`totalRepayable = totalRepaid + outstandingBalance`, a repayment
strictly above the balance pays every outstanding installment in
full, records `overpayment = amount - outstandingBalance > 0` with
applied portion `amount - overpayment`, and leaves the loan with
`outstandingBalance = 0`, `totalRepaid = totalRepayable` and status
`completed` (with the matching history entry). -/
theorem c4_overpayment_completion (st : EngineState) (loanId userId pid now : Nat)
    (amount : ℚ) (key ref : String)
    (hfresh : st.payments.find? (fun p => p.idempotencyKey == key) = none)
    (hid : st.loan.id = loanId) (huser : st.loan.userId = userId)
    (hact : st.loan.status = .active)
    (hamt : Cents amount) (htr : Cents st.loan.totalRepaid)
    (hc : ∀ s ∈ st.schedules, Cents s.totalAmount ∧ Cents s.paidAmount)
    (hp : ∀ s ∈ st.schedules, isOutstanding s = true → s.paidAmount < s.totalAmount)
    (hsum : sumOutstanding st.schedules = st.loan.outstandingBalance)
    (hinv : st.loan.totalRepayable = st.loan.totalRepaid + st.loan.outstandingBalance)
    (hover : st.loan.outstandingBalance < amount) :
    0 < amount - st.loan.outstandingBalance ∧
    processRepayment st loanId userId amount key ref pid now =
      .ok (⟨{ st.loan with
                totalRepaid := st.loan.totalRepayable
                outstandingBalance := 0
                status := LoanStatus.completed
                statusHistory := st.loan.statusHistory ++
                  [⟨some .active, .completed, none, userId, now⟩]
                version := st.loan.version + 1 + 1 },
            st.schedules.map (fun s => if isOutstanding s = true then
              { s with paidAmount := s.totalAmount, status := ScheduleStatus.paid, paidAt := some now }
            else s),
            st.payments ++ [c4Payment pid loanId userId key ref amount st.loan.outstandingBalance]⟩,
          ⟨c4Payment pid loanId userId key ref amount st.loan.outstandingBalance,
           ⟨st.loan.totalRepayable, 0, LoanStatus.completed⟩,
           (st.schedules.filter (fun s => isOutstanding s)).map
             (fun s => ⟨s.installmentNumber, s.totalAmount - s.paidAmount⟩),
           some (amount - st.loan.outstandingBalance)⟩) := by
  have hsnn : 0 ≤ sumOutstanding st.schedules := sumOutstanding_nonneg _ hp
  have hsc : Cents (sumOutstanding st.schedules) := cents_sumOutstanding _ hc
  have hobnn : 0 ≤ st.loan.outstandingBalance := hsum ▸ hsnn
  have hbig : sumOutstanding st.schedules < amount := by rw [hsum]; exact hover
  have hobc : Cents st.loan.outstandingBalance := hsum ▸ hsc
  have hrpos : 0 < amount - st.loan.outstandingBalance := by linarith
  have hneg : ¬ amount ≤ 0 := by push_neg; linarith
  have halloc := allocate_all_paid now st.schedules amount hc hp hamt hbig
  have e1 : roundToTwoDecimals
      (st.loan.totalRepaid + (amount - (amount - st.loan.outstandingBalance)))
      = st.loan.totalRepayable := by
    rw [show st.loan.totalRepaid + (amount - (amount - st.loan.outstandingBalance))
        = st.loan.totalRepaid + st.loan.outstandingBalance by ring]
    rw [roundToTwoDecimals_cents (cents_add htr hobc)]
    exact hinv.symm
  have e2 : roundToTwoDecimals (st.loan.totalRepayable - st.loan.totalRepayable) = 0 := by
    rw [sub_self]
    exact roundToTwoDecimals_cents cents_zero
  refine ⟨by linarith, ?_⟩
  simp only [processRepayment, hfresh, hid, huser, hact, and_self, if_true, hneg, if_false,
    halloc, hsum, hrpos, loanBalanceCas, eq_self_iff_true, e1, e2, le_refl, c4Payment,
    Payment.mk0]

/-- Witness for C4 at concrete inputs: repaying 250 on the 200
outstanding of `exState`. -/
theorem c4_witness :
    0 < (250 : ℚ) - exState.loan.outstandingBalance ∧
    processRepayment exState 1 2 250 "k9" "PAY-9" 12 7 =
      .ok (⟨{ exState.loan with
                totalRepaid := exState.loan.totalRepayable
                outstandingBalance := 0
                status := LoanStatus.completed
                statusHistory := exState.loan.statusHistory ++
                  [⟨some .active, .completed, none, 2, 7⟩]
                version := exState.loan.version + 1 + 1 },
            exState.schedules.map (fun s => if isOutstanding s = true then
              { s with paidAmount := s.totalAmount, status := ScheduleStatus.paid, paidAt := some 7 }
            else s),
            exState.payments ++
              [c4Payment 12 1 2 "k9" "PAY-9" 250 exState.loan.outstandingBalance]⟩,
          ⟨c4Payment 12 1 2 "k9" "PAY-9" 250 exState.loan.outstandingBalance,
           ⟨exState.loan.totalRepayable, 0, LoanStatus.completed⟩,
           (exState.schedules.filter (fun s => isOutstanding s)).map
             (fun s => ⟨s.installmentNumber, s.totalAmount - s.paidAmount⟩),
           some (250 - exState.loan.outstandingBalance)⟩) :=
  c4_overpayment_completion exState 1 2 12 7 250 "k9" "PAY-9" rfl rfl rfl rfl
    ⟨25000, by norm_num⟩ ⟨0, by norm_num [exState, exActiveLoan]⟩
    (by
      intro s hs
      simp [exState, exSchedule] at hs
      rcases hs with rfl | rfl <;> exact ⟨⟨10000, by norm_num⟩, ⟨0, by norm_num⟩⟩)
    (by
      intro s hs
      simp [exState, exSchedule] at hs
      rcases hs with rfl | rfl <;> intro _ <;> norm_num)
    (by norm_num [sumOutstanding, isOutstanding, exState, exSchedule, exActiveLoan])
    (by norm_num [exState, exActiveLoan])
    (by norm_num [exState, exActiveLoan])
